import Mathlib

/-!
Verification of the crypto_trade_bot core against its specification.

This file is a shallow embedding, in Lean 4, of the TypeScript sources of the
trading bot:

* `src/domain/model/trade_state.ts` — the trade lifecycle state machine;
* `src/domain/risk/swing_low_stop.ts` — pure risk/price computations;
* `src/domain/indicators/ta.ts` — EMA/RSI/ATR wrappers (the numeric kernels
  come from the external `technicalindicators` npm package and are modelled
  by their standard textbook definitions: SMA-seeded exponential average,
  Wilder-smoothed RSI and ATR);
* `src/domain/strategy/ema_trend_pullback_v0.ts` (the canonical version with
  pullback / reclaim / RSI / ATR guards);
* `src/app/usecases/close_position.ts` (the canonical version with the
  commit-rollback logic and realized-exit-price resolution);
* `src/app/usecases/open_position.ts`;
* `src/app/usecases/run_cycle.ts` (the cycle orchestrator `runCycle`).

Modelling conventions:

* JavaScript numbers are modelled as exact rationals (`ℚ`); `BigInt` values
  as `ℤ`.  `Math.floor` is `Int.floor`; `Math.round` (half towards `+∞`) is
  `⌊x + 1/2⌋`.
* Fallible synchronous code and `async` code that may reject is modelled in
  an error monad.  The effectful use cases run in `M`, a state-and-error
  monad over a world `W` that carries the call trace of the collaborator
  ports, a logical clock (supplying the `nowIso()` timestamps), the single
  in-memory `TradeRecord` being mutated, and the in-memory `RunRecord`.
  A `throw` in TypeScript is `throwM`; `try/catch` is `tryCatchM`.
* Collaborator ports (lock, persistence, market data, execution) are
  modelled as a record of response functions, one per port method; a
  behaviour maps the call arguments to either a normal result or a
  rejection.  Quantifying over this record quantifies over port behaviours.
* `Date` values and ISO-8601 timestamps are modelled as integer epoch
  milliseconds together with an injective string rendering `isoOf`; none of
  the verified claims depends on the concrete ISO format.
* Log-only strings (decision summaries, logger output) are rendered with
  exact-rational printing instead of JavaScript `toFixed`; no claim depends
  on that formatting.  Logger calls themselves are omitted: they have no
  effect on control flow or on any port.
-/

namespace TradeBot

/-! ## Trade state machine (`src/domain/model/trade_state.ts`) -/

/-- The `TRADE_STATE_VALUES` enumeration. -/
inductive TradeState where
  | CREATED
  | SUBMITTED
  | CONFIRMED
  | CLOSED
  | FAILED
  | CANCELED
deriving DecidableEq, Repr, Fintype

deriving instance DecidableEq for Except

/-- The `ALLOWED_TRANSITIONS` table. -/
def ALLOWED_TRANSITIONS : TradeState → List TradeState
  | .CREATED => [.SUBMITTED, .FAILED, .CANCELED]
  | .SUBMITTED => [.CONFIRMED, .FAILED, .CANCELED]
  | .CONFIRMED => [.SUBMITTED, .CLOSED, .FAILED, .CANCELED]
  | .CLOSED => []
  | .FAILED => []
  | .CANCELED => []

/-- `canTransitionTradeState(from, to)`. -/
def canTransitionTradeState (fromState toState : TradeState) : Bool :=
  (ALLOWED_TRANSITIONS fromState).contains toState

/-- Rendering of a trade state, used in error and summary strings. -/
def TradeState.str : TradeState → String
  | .CREATED => "CREATED"
  | .SUBMITTED => "SUBMITTED"
  | .CONFIRMED => "CONFIRMED"
  | .CLOSED => "CLOSED"
  | .FAILED => "FAILED"
  | .CANCELED => "CANCELED"

/-- `assertTradeStateTransition(from, to)`: throws on an illegal transition. -/
def assertTradeStateTransition (fromState toState : TradeState) :
    Except String Unit :=
  if !canTransitionTradeState fromState toState then
    .error ("Invalid trade state transition: " ++ fromState.str ++ " -> " ++ toState.str)
  else
    .ok ()

/-! ## Risk calculator (`src/domain/risk/swing_low_stop.ts`) -/

/-- `calculateSwingLow(lows, lookbackBars)`: minimum of the last
`lookbackBars` lows; throws on a non-positive lookback or short history. -/
def calculateSwingLow (lows : List ℚ) (lookbackBars : Int) : Except String ℚ :=
  if lookbackBars ≤ 0 then
    .error "lookbackBars must be greater than 0"
  else if (lows.length : Int) < lookbackBars then
    .error "Not enough lows for swing low"
  else
    let recentLows := lows.drop (lows.length - lookbackBars.toNat)
    .ok (recentLows.foldr min (recentLows.headI))

/-- `calculateMaxLossStopPrice(entryPrice, maxLossPct)` = `entry × (1 − pct/100)`. -/
def calculateMaxLossStopPrice (entryPrice maxLossPct : ℚ) : Except String ℚ :=
  if entryPrice ≤ 0 then
    .error "entryPrice must be greater than 0"
  else if maxLossPct ≤ 0 then
    .error "maxLossPct must be greater than 0"
  else
    let maxLossRatio := maxLossPct / 100
    .ok (entryPrice * (1 - maxLossRatio))

/-- `tightenStopForLong(entryPrice, swingLowStop, maxLossPct)`. -/
def tightenStopForLong (entryPrice swingLowStop maxLossPct : ℚ) : Except String ℚ := do
  let pctStop ← calculateMaxLossStopPrice entryPrice maxLossPct
  pure (max swingLowStop pctStop)

/-! ## Indicator kernels (`src/domain/indicators/ta.ts`)

`ta.ts` delegates the numeric work to the external `technicalindicators`
package.  Modelled from the spec: the EMA is the SMA-seeded exponential
moving average with multiplier `2/(period+1)` (output length
`n − period + 1`); RSI and ATR use Wilder smoothing (first value a simple
average over the first `period` samples, then
`avg' = (avg·(period−1) + x)/period`; output length `n − period`).  The
library rounds each RSI output to two decimals (`toFixed(2)`), modelled as
rounding half towards `+∞`. -/

/-- JavaScript `Math.round`: round half towards `+∞`. -/
def jsRound (x : ℚ) : Int := ⌊x + 1/2⌋

/-- `roundTo(value, decimals)` from `src/domain/utils/math.ts`. -/
def roundTo (value : ℚ) (decimals : Nat) : ℚ :=
  (jsRound (value * (10 : ℚ) ^ decimals) : ℚ) / (10 : ℚ) ^ decimals

/-- Wilder-smoothed running average: seeded with the simple average of the
first `p` samples, then `avg' = (avg·(p−1) + x)/p`.  Empty when `p = 0` or
fewer than `p` samples exist; otherwise has length `n − p + 1`. -/
def wilderSeries (xs : List ℚ) (p : Nat) : List ℚ :=
  if p = 0 ∨ xs.length < p then []
  else
    List.scanl (fun prev x => (prev * ((p : ℚ) - 1) + x) / (p : ℚ))
      ((xs.take p).sum / (p : ℚ)) (xs.drop p)

/-- The `technicalindicators` `EMA.calculate` kernel: SMA seed over the
first `period` values, then `ema' = (v − ema)·k + ema` with
`k = 2/(period+1)`.  Empty when `period = 0` or the input is shorter than
`period`; otherwise has length `n − period + 1`. -/
def emaCalc (values : List ℚ) (period : Nat) : List ℚ :=
  if period = 0 ∨ values.length < period then []
  else
    let k : ℚ := 2 / ((period : ℚ) + 1)
    List.scanl (fun prev v => (v - prev) * k + prev)
      ((values.take period).sum / (period : ℚ)) (values.drop period)

/-- `emaSeries(closes, period)` from `ta.ts`: guards the period and empty
input, then delegates to the EMA kernel.  (Over `ℚ` every value is finite,
so the `isFiniteSeries` guard always passes.) -/
def emaSeries (closes : List ℚ) (period : Int) : List ℚ :=
  if period ≤ 0 ∨ closes.isEmpty then [] else emaCalc closes period.toNat

/-- One RSI output from a Wilder-averaged gain/loss pair, with the
library's two-decimal rounding on the interior branch. -/
def rsiPoint (gain loss : ℚ) : ℚ :=
  if loss = 0 then 100
  else if gain = 0 then 0
  else roundTo (100 - 100 / (1 + gain / loss)) 2

/-- The `technicalindicators` `RSI.calculate` kernel: Wilder-averaged gains
and losses over the consecutive close-to-close changes. -/
def rsiCalc (values : List ℚ) (period : Nat) : List ℚ :=
  let diffs := List.zipWith (fun a b => a - b) (values.drop 1) values
  let gains := diffs.map (fun d => max d 0)
  let losses := diffs.map (fun d => max (-d) 0)
  List.zipWith rsiPoint (wilderSeries gains period) (wilderSeries losses period)

/-- `rsiSeries(closes, period)` from `ta.ts`. -/
def rsiSeries (closes : List ℚ) (period : Int) : List ℚ :=
  if period ≤ 0 ∨ closes.isEmpty then [] else rsiCalc closes period.toNat

/-- True-range series: for each bar after the first,
`max(high − low, |high − prevClose|, |low − prevClose|)`. -/
def trueRanges (highs lows closes : List ℚ) : List ℚ :=
  List.zipWith (fun (hl : ℚ × ℚ) (pc : ℚ) =>
      max (hl.1 - hl.2) (max |hl.1 - pc| |hl.2 - pc|))
    (List.zip (highs.drop 1) (lows.drop 1)) closes

/-- The `technicalindicators` `ATR.calculate` kernel: Wilder smoothing of
the true-range series. -/
def atrCalc (highs lows closes : List ℚ) (period : Nat) : List ℚ :=
  wilderSeries (trueRanges highs lows closes) period

/-- `atrSeries(highs, lows, closes, period)` from `ta.ts`. -/
def atrSeries (highs lows closes : List ℚ) (period : Int) : List ℚ :=
  if period ≤ 0 ∨ highs.isEmpty ∨ lows.isEmpty ∨ closes.isEmpty ∨
      highs.length ≠ lows.length ∨ highs.length ≠ closes.length then []
  else atrCalc highs lows closes period.toNat

/-- `calculateTakeProfitPrice(entryPrice, stopPrice, rMultiple)`. -/
def calculateTakeProfitPrice (entryPrice stopPrice rMultiple : ℚ) : Except String ℚ :=
  if rMultiple ≤ 0 then
    .error "rMultiple must be greater than 0"
  else if entryPrice ≤ stopPrice then
    .error "entryPrice must be greater than stopPrice"
  else
    let oneR := entryPrice - stopPrice
    .ok (entryPrice + oneR * rMultiple)

/-! ## Data model (`src/domain/model/types.ts`) -/

/-- `OhlcvBar`; timestamps are epoch milliseconds, the `open` price field is
renamed `openPrice` (`open` is a Lean keyword). -/
structure OhlcvBar where
  openTime : Int
  closeTime : Int
  openPrice : ℚ
  high : ℚ
  low : ℚ
  close : ℚ
  volume : ℚ
deriving DecidableEq, Repr

/-- `StrategyConfig` (the `name`/`entry` literal tags carry no information
and are omitted). -/
structure StrategyConfig where
  ema_fast_period : Int
  ema_slow_period : Int
  swing_low_lookback_bars : Int
deriving DecidableEq, Repr

/-- `RiskConfig`. -/
structure RiskConfig where
  max_loss_per_trade_pct : ℚ
  max_trades_per_day : Int
deriving DecidableEq, Repr

/-- `ExecutionConfig` (the `mode`/`swap_provider` literal tags are omitted). -/
structure ExecutionConfig where
  slippage_bps : ℚ
  min_notional_usdc : ℚ
  only_direct_routes : Bool
deriving DecidableEq, Repr

/-- `ExitConfig` (the `stop` literal tag is omitted). -/
structure ExitConfig where
  take_profit_r_multiple : ℚ
deriving DecidableEq, Repr

/-- `MetaConfig`. -/
structure MetaConfig where
  config_version : Int
deriving DecidableEq, Repr

/-- `SignalTimeframe` (the union accepted by `getBarDurationMs`). -/
inductive SignalTimeframe where
  | h2
  | h4
deriving DecidableEq, Repr

/-- `BotConfig` (the `network`/`pair`/`direction` literal tags are omitted:
each has a single inhabitant in `types.ts`). -/
structure BotConfig where
  enabled : Bool
  signal_timeframe : SignalTimeframe
  strategy : StrategyConfig
  risk : RiskConfig
  execution : ExecutionConfig
  exit : ExitConfig
  meta : MetaConfig
deriving DecidableEq, Repr

/-! ## Strategy engine (`src/domain/strategy/ema_trend_pullback_v0.ts`,
canonical version with pullback/reclaim/RSI/ATR guards) -/

def PULLBACK_LOOKBACK_BARS : Nat := 4
def MAX_DISTANCE_FROM_EMA_FAST_PCT : ℚ := 6/5
def MIN_STOP_DISTANCE_PCT : ℚ := 2/5
def RSI_PERIOD : Nat := 14
def RSI_LOWER_BOUND : ℚ := 45
def RSI_UPPER_BOUND : ℚ := 70
def ATR_PERIOD : Nat := 14
def ATR_STOP_MULTIPLIER : ℚ := 2

/-- The `NO_SIGNAL` reason codes produced by the strategy (the
`INSUFFICIENT_BARS_<got>_OF_<required>` template keeps its two numbers). -/
inductive NoSignalReason where
  | INSUFFICIENT_BARS (got : Nat) (required : Int)
  | INVALID_MIN_NOTIONAL_USDC
  | EMA_NOT_STABLE
  | EMA_TREND_FILTER_FAILED
  | PULLBACK_NOT_FOUND
  | RECLAIM_NOT_FOUND
  | CHASE_ENTRY_TOO_FAR_FROM_EMA
  | RSI_NOT_STABLE
  | RSI_TOO_LOW
  | RSI_TOO_HIGH
  | ATR_STOP_CONFLICT_MAX_LOSS
  | INVALID_RISK_STRUCTURE
  | STOP_TOO_TIGHT
deriving DecidableEq, Repr

/-- Reason-code rendering (used for `RunRecord.reason`). -/
def NoSignalReason.str : NoSignalReason → String
  | .INSUFFICIENT_BARS got required =>
      "INSUFFICIENT_BARS_" ++ toString got ++ "_OF_" ++ toString required
  | .INVALID_MIN_NOTIONAL_USDC => "INVALID_MIN_NOTIONAL_USDC"
  | .EMA_NOT_STABLE => "EMA_NOT_STABLE"
  | .EMA_TREND_FILTER_FAILED => "EMA_TREND_FILTER_FAILED"
  | .PULLBACK_NOT_FOUND => "PULLBACK_NOT_FOUND"
  | .RECLAIM_NOT_FOUND => "RECLAIM_NOT_FOUND"
  | .CHASE_ENTRY_TOO_FAR_FROM_EMA => "CHASE_ENTRY_TOO_FAR_FROM_EMA"
  | .RSI_NOT_STABLE => "RSI_NOT_STABLE"
  | .RSI_TOO_LOW => "RSI_TOO_LOW"
  | .RSI_TOO_HIGH => "RSI_TOO_HIGH"
  | .ATR_STOP_CONFLICT_MAX_LOSS => "ATR_STOP_CONFLICT_MAX_LOSS"
  | .INVALID_RISK_STRUCTURE => "INVALID_RISK_STRUCTURE"
  | .STOP_TOO_TIGHT => "STOP_TOO_TIGHT"

/-- `EntrySignalDecision` (summary strings keep only their static text; see
the header note on log-string rendering). -/
structure EntrySignal where
  summary : String
  ema_fast : ℚ
  ema_slow : ℚ
  entry_price : ℚ
  stop_price : ℚ
  take_profit_price : ℚ
deriving DecidableEq, Repr

/-- `StrategyDecision`: `ENTER` or `NO_SIGNAL` (the ad-hoc diagnostics bag
is log-only and omitted). -/
inductive StrategyDecision where
  | enter (e : EntrySignal)
  | noSignal (summary : String) (reason : NoSignalReason)
      (ema_fast ema_slow : Option ℚ)
deriving DecidableEq, Repr

/-- The strategy evaluation input record. -/
structure EvaluateInput where
  bars : List OhlcvBar
  strategy : StrategyConfig
  risk : RiskConfig
  exit : ExitConfig
  execution : ExecutionConfig
deriving DecidableEq, Repr

/-- The per-bar fast-EMA lookup `emaFastByBar` (offset-aligned to the close
series; indices before the warm-up are `undefined`). -/
def emaFastByBarOf (closes : List ℚ) (fastSeries : List ℚ) : List (Option ℚ) :=
  let emaFastOffset := closes.length - fastSeries.length
  (List.range closes.length).map fun i =>
    if emaFastOffset ≤ i then fastSeries[i - emaFastOffset]? else none

/-- The pullback test for index `i`: the bar's low touched/crossed its own
fast EMA or its close sat below it (`continue` on missing values). -/
def pullbackAt (emaFastByBar : List (Option ℚ)) (lows closes : List ℚ)
    (i : Nat) : Bool :=
  match (emaFastByBar[i]?).join, lows[i]?, closes[i]? with
  | some e, some lo, some cl => lo ≤ e || cl < e
  | _, _, _ => false

/-- The `minimumBars` requirement of the strategy. -/
def minimumBarsOf (strategy : StrategyConfig) : Int :=
  max strategy.ema_fast_period (max strategy.ema_slow_period
    (max strategy.swing_low_lookback_bars
      (max ((PULLBACK_LOOKBACK_BARS : Int) + 1)
        (max ((RSI_PERIOD : Int) + 1) ((ATR_PERIOD : Int) + 1)))))

/-- The latest fast-EMA value the strategy sees for an input: the last entry
of the offset-aligned per-bar fast-EMA lookup. -/
def latestFastEma (input : EvaluateInput) : Option ℚ :=
  let closes := input.bars.map (·.close)
  ((emaFastByBarOf closes
      (emaSeries closes input.strategy.ema_fast_period)).getLast?).join

/-- The latest slow-EMA value the strategy sees for an input. -/
def latestSlowEma (input : EvaluateInput) : Option ℚ :=
  let closes := input.bars.map (·.close)
  (emaSeries closes input.strategy.ema_slow_period).getLast?

/-- The stop/take-profit derivation tail of the strategy (swing-low stop,
tighten, ATR-conflict, risk-structure and stop-distance guards, take-profit;
the code after the RSI checks).  Exceptions from the risk helpers propagate
(explicit `Except.error` matches, exactly as TypeScript exceptions propagate
out of the strategy function). -/
def strategyRiskStage (input : EvaluateInput) (emaFast emaSlow entryPrice : ℚ) :
    Except String StrategyDecision :=
  match calculateSwingLow (input.bars.map (·.low))
      input.strategy.swing_low_lookback_bars with
  | .error msg => .error msg
  | .ok swingLowStop =>
    match tightenStopForLong entryPrice swingLowStop
        input.risk.max_loss_per_trade_pct with
    | .error msg => .error msg
    | .ok stopCandidate =>
      if (match (atrSeries (input.bars.map (·.high)) (input.bars.map (·.low))
            (input.bars.map (·.close)) (ATR_PERIOD : Int)).getLast? with
          | some a => decide (0 < a) &&
              decide (entryPrice - a * ATR_STOP_MULTIPLIER < stopCandidate)
          | none => false) then
        .ok (.noSignal "NO_SIGNAL: ATR stop conflicts with max loss cap"
          .ATR_STOP_CONFLICT_MAX_LOSS (some emaFast) (some emaSlow))
      else if stopCandidate ≥ entryPrice then
        .ok (.noSignal "NO_SIGNAL: stop is not below entry"
          .INVALID_RISK_STRUCTURE (some emaFast) (some emaSlow))
      else if (entryPrice - stopCandidate) / entryPrice * 100 <
          MIN_STOP_DISTANCE_PCT then
        .ok (.noSignal "NO_SIGNAL: stop is too tight"
          .STOP_TOO_TIGHT (some emaFast) (some emaSlow))
      else
        match calculateTakeProfitPrice entryPrice stopCandidate
            input.exit.take_profit_r_multiple with
        | .error msg => .error msg
        | .ok takeProfitPrice =>
          .ok (.enter
            { summary := "ENTER: trend ok + pullback/reclaim"
              ema_fast := emaFast
              ema_slow := emaSlow
              entry_price := entryPrice
              stop_price := stopCandidate
              take_profit_price := takeProfitPrice })

/-- The pullback scan: within the `PULLBACK_LOOKBACK_BARS` bars preceding
the latest bar, some bar's low touched its own fast EMA or its close sat
below it (`Math.max(0, ·)` is ℕ-subtraction here). -/
def pullbackFound (input : EvaluateInput) : Bool :=
  (List.range' (input.bars.length - 1 - PULLBACK_LOOKBACK_BARS)
      (input.bars.length - 1 - (input.bars.length - 1 - PULLBACK_LOOKBACK_BARS))).any
    (pullbackAt
      (emaFastByBarOf (input.bars.map (·.close))
        (emaSeries (input.bars.map (·.close)) input.strategy.ema_fast_period))
      (input.bars.map (·.low)) (input.bars.map (·.close)))

/-- The setup guards of the strategy once the latest EMA values and entry
price are stable: trend filter, pullback, reclaim, chase guard and RSI band
(the code between the stability check and the stop derivation). -/
def strategySetupStage (input : EvaluateInput) (emaFast emaSlow entryPrice : ℚ) :
    Except String StrategyDecision :=
  if emaFast ≤ emaSlow then
    .ok (.noSignal "NO_SIGNAL: trend filter failed"
      .EMA_TREND_FILTER_FAILED (some emaFast) (some emaSlow))
  else if !(pullbackFound input) then
    .ok (.noSignal "NO_SIGNAL: pullback condition not found"
      .PULLBACK_NOT_FOUND (some emaFast) (some emaSlow))
  else if !(decide (entryPrice > emaFast)) then
    .ok (.noSignal "NO_SIGNAL: reclaim condition not found"
      .RECLAIM_NOT_FOUND (some emaFast) (some emaSlow))
  else if (entryPrice - emaFast) / entryPrice * 100 >
      MAX_DISTANCE_FROM_EMA_FAST_PCT then
    .ok (.noSignal "NO_SIGNAL: entry is too far from EMA fast"
      .CHASE_ENTRY_TOO_FAR_FROM_EMA (some emaFast) (some emaSlow))
  else
    match (rsiSeries (input.bars.map (·.close)) (RSI_PERIOD : Int)).getLast? with
    | none =>
      .ok (.noSignal "NO_SIGNAL: RSI is not stable yet"
        .RSI_NOT_STABLE (some emaFast) (some emaSlow))
    | some rsiValue =>
      if rsiValue < RSI_LOWER_BOUND then
        .ok (.noSignal "NO_SIGNAL: RSI is too low"
          .RSI_TOO_LOW (some emaFast) (some emaSlow))
      else if rsiValue > RSI_UPPER_BOUND then
        .ok (.noSignal "NO_SIGNAL: RSI is too high"
          .RSI_TOO_HIGH (some emaFast) (some emaSlow))
      else
        strategyRiskStage input emaFast emaSlow entryPrice

/-- `evaluateEmaTrendPullbackV0`: the linear guard chain — history and
sizing guards, EMA stability, then the setup and risk stages. -/
def evaluateEmaTrendPullbackV0 (input : EvaluateInput) :
    Except String StrategyDecision :=
  if (input.bars.length : Int) < minimumBarsOf input.strategy then
    .ok (.noSignal "NO_SIGNAL: not enough bars for strategy calculation"
      (.INSUFFICIENT_BARS input.bars.length (minimumBarsOf input.strategy))
      none none)
  else if input.execution.min_notional_usdc ≤ 0 then
    .ok (.noSignal "NO_SIGNAL: min_notional_usdc is invalid"
      .INVALID_MIN_NOTIONAL_USDC none none)
  else
    match latestFastEma input, latestSlowEma input,
        (input.bars.map (·.close)).getLast? with
    | some emaFast, some emaSlow, some entryPrice =>
      strategySetupStage input emaFast emaSlow entryPrice
    | _, _, _ =>
      .ok (.noSignal "NO_SIGNAL: EMA is not stable yet" .EMA_NOT_STABLE none none)

/-! ### Concrete test fixtures used by the witnesses -/

/-- A sample OHLCV bar closing at time `t` with the given close/low/high. -/
def sampleBar (t : Int) (c lo hi : ℚ) : OhlcvBar :=
  { openTime := t - 1, closeTime := t, openPrice := c, high := hi, low := lo
    volume := 1, close := c }

/-- A strategy configuration with short EMA periods (fast 2, slow 3) and a
two-bar swing lookback. -/
def sampleStrategy : StrategyConfig :=
  { ema_fast_period := 2, ema_slow_period := 3, swing_low_lookback_bars := 2 }

/-- Sixteen gently oscillating bars that end with a shallow dip and a
recovery: every guard of the strategy passes, so evaluation yields `ENTER`. -/
def enterBars : List OhlcvBar :=
  [sampleBar 0 100 (1999/20) (2001/20),
   sampleBar 1 (1001/10) (2001/20) (2003/20),
   sampleBar 2 100 (1999/20) (2001/20),
   sampleBar 3 (1001/10) (2001/20) (2003/20),
   sampleBar 4 100 (1999/20) (2001/20),
   sampleBar 5 (1001/10) (2001/20) (2003/20),
   sampleBar 6 100 (1999/20) (2001/20),
   sampleBar 7 (1001/10) (2001/20) (2003/20),
   sampleBar 8 100 (1999/20) (2001/20),
   sampleBar 9 (1001/10) (2001/20) (2003/20),
   sampleBar 10 100 (1999/20) (2001/20),
   sampleBar 11 (1001/10) (2001/20) (2003/20),
   sampleBar 12 100 (1999/20) (2001/20),
   sampleBar 13 (1999/20) (999/10) 100,
   sampleBar 14 (2001/20) (997/10) (1001/10),
   sampleBar 15 (2003/20) (997/10) (501/5)]

/-- The strategy input whose evaluation yields an `ENTER` decision. -/
def enterInput : EvaluateInput :=
  { bars := enterBars
    strategy := sampleStrategy
    risk := { max_loss_per_trade_pct := 1, max_trades_per_day := 3 }
    exit := { take_profit_r_multiple := 2 }
    execution :=
      { slippage_bps := 100, min_notional_usdc := 50, only_direct_routes := false } }

/-- Sixteen strictly falling bars: the latest fast EMA sits below the latest
slow EMA. -/
def downBars : List OhlcvBar :=
  [sampleBar 0 100 (1999/20) (2001/20),
   sampleBar 1 99 (1979/20) (1981/20),
   sampleBar 2 98 (1959/20) (1961/20),
   sampleBar 3 97 (1939/20) (1941/20),
   sampleBar 4 96 (1919/20) (1921/20),
   sampleBar 5 95 (1899/20) (1901/20),
   sampleBar 6 94 (1879/20) (1881/20),
   sampleBar 7 93 (1859/20) (1861/20),
   sampleBar 8 92 (1839/20) (1841/20),
   sampleBar 9 91 (1819/20) (1821/20),
   sampleBar 10 90 (1799/20) (1801/20),
   sampleBar 11 89 (1779/20) (1781/20),
   sampleBar 12 88 (1759/20) (1761/20),
   sampleBar 13 87 (1739/20) (1741/20),
   sampleBar 14 86 (1719/20) (1721/20),
   sampleBar 15 85 (1699/20) (1701/20)]

/-- A downtrend input whose `min_notional_usdc` is invalid (zero): the
sizing guard fires before the trend filter is ever consulted. -/
def downtrendBadNotionalInput : EvaluateInput :=
  { bars := downBars
    strategy := sampleStrategy
    risk := { max_loss_per_trade_pct := 1, max_trades_per_day := 3 }
    exit := { take_profit_r_multiple := 2 }
    execution :=
      { slippage_bps := 100, min_notional_usdc := 0, only_direct_routes := false } }

/-- The same downtrend input with a valid minimum notional. -/
def downtrendInput : EvaluateInput :=
  { downtrendBadNotionalInput with
    execution := { slippage_bps := 100, min_notional_usdc := 50
                   only_direct_routes := false } }

/-- The `ENTER` decision produced by the strategy on `enterInput`. -/
def enterFixtureSignal : EntrySignal :=
  { summary := "ENTER: trend ok + pullback/reclaim"
    ema_fast := 9576301099/95659380
    ema_slow := 48041/480
    entry_price := 2003/20
    stop_price := 997/10
    take_profit_price := 2021/20 }

/-! ## Trade and run records (`src/domain/model/types.ts`) -/

/-- `SwapSide`. -/
inductive SwapSide where
  | buySolWithUsdc
  | sellSolForUsdc
deriving DecidableEq, Repr

/-- `TradeOrderSnapshot`. -/
structure TradeOrderSnapshot where
  tx_signature : String
deriving DecidableEq, Repr

/-- `TradeResultSnapshot` (the `status: 'SIMULATED'` literal tag is omitted). -/
structure TradeResultSnapshot where
  avg_fill_price : ℚ
  spent_quote_usdc : ℚ
  filled_base_sol : ℚ
deriving DecidableEq, Repr

/-- The `exit_submission_state` union. -/
inductive ExitSubmissionState where
  | SUBMITTED
  | CONFIRMED
  | FAILED
deriving DecidableEq, Repr

/-- `TradeExecutionSnapshot`: every field optional, present only once known. -/
structure TradeExecutionSnapshot where
  entry_tx_signature : Option String := none
  exit_tx_signature : Option String := none
  exit_submission_state : Option ExitSubmissionState := none
  entry_error : Option String := none
  exit_error : Option String := none
  order : Option TradeOrderSnapshot := none
  result : Option TradeResultSnapshot := none
  exit_order : Option TradeOrderSnapshot := none
  exit_result : Option TradeResultSnapshot := none
deriving DecidableEq, Repr

/-- The position `status` union. -/
inductive PositionStatus where
  | OPEN
  | CLOSED
deriving DecidableEq, Repr

/-- `TradePositionSnapshot`. -/
structure TradePositionSnapshot where
  status : PositionStatus
  quantity_sol : ℚ
  entry_price : ℚ
  stop_price : ℚ
  take_profit_price : ℚ
  entry_time_iso : Option String := none
  exit_price : Option ℚ := none
  exit_trigger_price : Option ℚ := none
  exit_time_iso : Option String := none
deriving DecidableEq, Repr

/-- `CloseReason`. -/
inductive CloseReason where
  | TAKE_PROFIT
  | STOP_LOSS
  | MANUAL
  | SYSTEM_ERROR
deriving DecidableEq, Repr

/-- Rendering of a close reason, used in summary strings. -/
def CloseReason.str : CloseReason → String
  | .TAKE_PROFIT => "TAKE_PROFIT"
  | .STOP_LOSS => "STOP_LOSS"
  | .MANUAL => "MANUAL"
  | .SYSTEM_ERROR => "SYSTEM_ERROR"

/-- `TradeSignalSnapshot`. -/
structure TradeSignalSnapshot where
  summary : String
  bar_close_time_iso : String
  ema_fast : ℚ
  ema_slow : ℚ
deriving DecidableEq, Repr

/-- `TradePlanSnapshot`. -/
structure TradePlanSnapshot where
  summary : String
  notional_usdc : ℚ
  entry_price : ℚ
  stop_price : ℚ
  take_profit_price : ℚ
  r_multiple : ℚ
deriving DecidableEq, Repr

/-- `TradeRecord` (the `pair`/`direction` single-inhabitant tags are
omitted). -/
structure TradeRecord where
  trade_id : String
  bar_close_time_iso : String
  state : TradeState
  config_version : Int
  signal : TradeSignalSnapshot
  plan : TradePlanSnapshot
  execution : TradeExecutionSnapshot
  position : TradePositionSnapshot
  close_reason : Option CloseReason := none
  created_at : String
  updated_at : String
deriving DecidableEq, Repr

/-- `RunResult`. -/
inductive RunResult where
  | OPENED
  | CLOSED
  | NO_SIGNAL
  | HOLD
  | SKIPPED
  | SKIPPED_ENTRY
  | FAILED
deriving DecidableEq, Repr

/-- `RunRecord`. -/
structure RunRecord where
  run_id : String
  bar_close_time_iso : String
  executed_at_iso : String
  result : RunResult
  summary : String
  reason : Option String := none
  config_version : Option Int := none
  trade_id : Option String := none
deriving DecidableEq, Repr

/-- The `Partial<TradeRecord>` update payload passed to `updateTrade`, after
`stripUndefined`: absent fields are `none`. -/
structure TradeUpdate where
  state : Option TradeState := none
  plan : Option TradePlanSnapshot := none
  execution : Option TradeExecutionSnapshot := none
  position : Option TradePositionSnapshot := none
  close_reason : Option CloseReason := none
  updated_at : Option String := none
deriving DecidableEq, Repr

/-- `SubmitSwapRequest`. -/
structure SubmitSwapRequest where
  side : SwapSide
  amountAtomic : Int
  slippageBps : ℚ
  onlyDirectRoutes : Bool
deriving DecidableEq, Repr

/-- `SwapSubmission`. -/
structure SwapSubmission where
  txSignature : String
  inAmountAtomic : Int
  outAmountAtomic : Int
  order : Option TradeOrderSnapshot := none
  result : Option TradeResultSnapshot := none
deriving DecidableEq, Repr

/-- `SwapConfirmation`. -/
structure SwapConfirmation where
  confirmed : Bool
  error : Option String := none
deriving DecidableEq, Repr

/-! ## The effect monad and the collaborator ports

Every `async` collaborator call either resolves or rejects; a rejection is a
thrown exception.  The world `W` records the observable history: the ordered
trace of port calls, a logical clock backing `nowIso()`, the single
in-memory `TradeRecord` under mutation (with the `currentState` local that
the use cases' `moveState` closures capture), and the in-memory `RunRecord`
of the cycle. -/

/-- A thrown JavaScript error, reduced to its message. -/
structure Err where
  message : String
deriving DecidableEq, Repr

/-- One observable port call. -/
inductive Event where
  | acquireLock
  | releaseLock
  | hasEntry (bar : String)
  | markEntry (bar : String)
  | setInflight (tx : String)
  | clearInflight (tx : String)
  | getConfig
  | findOpen
  | countTrades (dayStart dayEnd : String)
  | fetchBars (limit : Int)
  | getMark
  | saveRun (id : String)
  | createTrade (id : String)
  | updateTrade (id : String) (u : TradeUpdate)
  | submitSwap (req : SubmitSwapRequest)
  | confirmSwap (tx : String)
deriving DecidableEq, Repr

/-- The mutable world threaded through a cycle invocation. -/
structure W where
  trace : List Event
  clock : Nat
  trade : TradeRecord
  run : RunRecord
  curState : TradeState
deriving DecidableEq, Repr

/-- The effect monad: state `W` plus JavaScript exceptions. -/
def M (α : Type) : Type := W → Except Err α × W

/-- `pure` for `M`. -/
def Mpure (a : α) : M α := fun w => (.ok a, w)

/-- `bind` for `M`: an exception short-circuits, the world persists. -/
def Mbind (x : M α) (f : α → M β) : M β := fun w =>
  match x w with
  | (.ok a, w') => f a w'
  | (.error e, w') => (.error e, w')

instance : Monad M where
  pure := Mpure
  bind := Mbind

/-- `throw` in TypeScript. -/
def throwM (e : Err) : M α := fun w => (.error e, w)

/-- `try/catch` in TypeScript: the handler sees the world as mutated up to
the throw. -/
def tryCatchM (x : M α) (handle : Err → M α) : M α := fun w =>
  match x w with
  | (.error e, w') => handle e w'
  | ok => ok

/-- Perform one port call: record the event and return the behaviour's
response (resolving or rejecting). -/
def callPort (ev : Event) (r : Except Err α) : M α := fun w =>
  (r, { w with trace := w.trace ++ [ev] })

/-- `new Date().toISOString()`: a fresh timestamp from the logical clock. -/
def nowIso : M String := fun w =>
  (.ok ("t" ++ toString w.clock), { w with clock := w.clock + 1 })

def getTrade : M TradeRecord := fun w => (.ok w.trade, w)

def setTrade (t : TradeRecord) : M Unit := fun w => (.ok (), { w with trade := t })

def modifyTrade (f : TradeRecord → TradeRecord) : M Unit := fun w =>
  (.ok (), { w with trade := f w.trade })

def getRun : M RunRecord := fun w => (.ok w.run, w)

def setRun (r : RunRecord) : M Unit := fun w => (.ok (), { w with run := r })

def modifyRun (f : RunRecord → RunRecord) : M Unit := fun w =>
  (.ok (), { w with run := f w.run })

def getCur : M TradeState := fun w => (.ok w.curState, w)

def setCur (s : TradeState) : M Unit := fun w => (.ok (), { w with curState := s })

/-- A behaviour of the collaborator ports: one response function per port
method (TTL and timeout arguments are fixed constants in the source and
carry no information, so they are not passed).  `getMarkPrice` is an
optional method; when present it may resolve to `undefined` (`none`). -/
structure Ports where
  acquireRunnerLock : Except Err Bool
  releaseRunnerLock : Except Err Unit
  hasEntryAttempt : String → Except Err Bool
  markEntryAttempt : String → Except Err Bool
  setInflightTx : String → Except Err Unit
  clearInflightTx : String → Except Err Unit
  getCurrentConfig : Except Err BotConfig
  createTrade : TradeRecord → Except Err Unit
  updateTrade : String → TradeUpdate → Except Err Unit
  findOpenTrade : Except Err (Option TradeRecord)
  countTradesForUtcDay : String → String → Except Err Int
  saveRun : RunRecord → Except Err Unit
  fetchBars : Int → Except Err (List OhlcvBar)
  getMarkPrice : Option (Except Err (Option ℚ))
  submitSwap : SubmitSwapRequest → Except Err SwapSubmission
  confirmSwap : String → Except Err SwapConfirmation

/-! ## Time utilities (`src/domain/utils/time.ts`) -/

/-- `TIMEFRAME_TO_MS`. -/
def getBarDurationMs : SignalTimeframe → Int
  | .h2 => 7200000
  | .h4 => 14400000

/-- `getLastClosedBarClose(now, timeframe)` =
`Math.floor(ms/duration) × duration`. -/
def getLastClosedBarClose (nowMs : Int) (timeframe : SignalTimeframe) : Int :=
  (Int.fdiv nowMs (getBarDurationMs timeframe)) * getBarDurationMs timeframe

/-- Injective rendering of an epoch-millisecond timestamp standing in for
`Date.toISOString()` (no claim depends on the ISO format). -/
def isoOf (ms : Int) : String := "ISO" ++ toString ms

/-- `getUtcDayRange(target)`: the UTC day bounds around a timestamp. -/
def getUtcDayRange (targetMs : Int) : String × String :=
  let dayStart := (Int.fdiv targetMs 86400000) * 86400000
  (isoOf dayStart, isoOf (dayStart + 86400000 - 1))

/-- `buildTradeId(barCloseTimeIso)`. -/
def buildTradeId (barCloseTimeIso : String) : String :=
  barCloseTimeIso ++ "_SOLUSDC_LONG"

/-- `buildRunId(barCloseTimeIso, runAt)` (the `[:.]→-` character rewrite of
the source is applied verbatim). -/
def buildRunId (barCloseTimeIso : String) (runAtMs : Int) : String :=
  (barCloseTimeIso.map (fun ch => if ch = ':' ∨ ch = '.' then '-' else ch)) ++
    "_" ++ toString runAtMs

/-! ## Close-position use case (`src/app/usecases/close_position.ts`,
canonical version with rollback and realized-exit-price resolution) -/

def SOL_ATOMIC_MULTIPLIER : ℚ := 1000000000
def USDC_ATOMIC_MULTIPLIER : ℚ := 1000000

structure ClosePositionInput where
  config : BotConfig
  trade : TradeRecord
  closeReason : CloseReason
  closePrice : ℚ
deriving DecidableEq, Repr

inductive CloseStatus where
  | CLOSED
  | FAILED
deriving DecidableEq, Repr

structure ClosePositionResult where
  status : CloseStatus
  tradeId : String
  summary : String
deriving DecidableEq, Repr

/-- The `moveState` closure of `closePosition`: assert the transition,
take a timestamp, persist the next state together with the current
execution/position/close-reason snapshots, and only then mutate the
in-memory record and the captured `currentState`. -/
def closeMoveState (ports : Ports) (next : TradeState) : M Unit := do
  let cur ← getCur
  match assertTradeStateTransition cur next with
  | .error msg => throwM ⟨msg⟩
  | .ok _ => do
    let ts ← nowIso
    let t ← getTrade
    let u : TradeUpdate :=
      { state := some next, execution := some t.execution,
        position := some t.position, close_reason := t.close_reason,
        updated_at := some ts }
    callPort (.updateTrade t.trade_id u) (ports.updateTrade t.trade_id u)
    setCur next
    setTrade { t with state := next, updated_at := ts }

/-- `closePosition(dependencies, input)`. -/
def closePosition (ports : Ports) (input : ClosePositionInput) :
    M ClosePositionResult := do
  setTrade input.trade
  if input.trade.state ≠ .CONFIRMED then
    pure { status := .FAILED, tradeId := input.trade.trade_id,
           summary := "FAILED: trade state is " ++ input.trade.state.str ++
             ", expected CONFIRMED" }
  else do
    setCur input.trade.state
    let amountAtomic : Int :=
      ⌊input.trade.position.quantity_sol * SOL_ATOMIC_MULTIPLIER⌋
    if amountAtomic ≤ 0 then do
      modifyTrade fun t =>
        { t with execution :=
            { t.execution with
              exit_submission_state := some .FAILED
              exit_error := some "position quantity is 0" } }
      closeMoveState ports .FAILED
      pure { status := .FAILED, tradeId := input.trade.trade_id,
             summary := "FAILED: position quantity is 0" }
    else
      tryCatchM
        (do
          let req : SubmitSwapRequest :=
            { side := .sellSolForUsdc, amountAtomic := amountAtomic,
              slippageBps := input.config.execution.slippage_bps,
              onlyDirectRoutes := input.config.execution.only_direct_routes }
          let submission ← callPort (.submitSwap req) (ports.submitSwap req)
          modifyTrade fun t =>
            { t with execution :=
                { t.execution with
                  exit_tx_signature := some submission.txSignature
                  exit_order :=
                    match submission.order with
                    | some o => some o
                    | none => t.execution.exit_order
                  exit_result :=
                    match submission.result with
                    | some r => some r
                    | none => t.execution.exit_result
                  exit_submission_state := some .SUBMITTED } }
          let ts ← nowIso
          modifyTrade fun t => { t with updated_at := ts }
          let t1 ← getTrade
          let u1 : TradeUpdate :=
            { execution := some t1.execution, updated_at := some t1.updated_at }
          callPort (.updateTrade t1.trade_id u1) (ports.updateTrade t1.trade_id u1)
          callPort (.setInflight submission.txSignature)
            (ports.setInflightTx submission.txSignature)
          let confirmation ← callPort (.confirmSwap submission.txSignature)
            (ports.confirmSwap submission.txSignature)
          callPort (.clearInflight submission.txSignature)
            (ports.clearInflightTx submission.txSignature)
          if !confirmation.confirmed then do
            let errText := confirmation.error.getD "unknown confirmation error"
            modifyTrade fun t =>
              { t with execution :=
                  { t.execution with
                    exit_submission_state := some .FAILED
                    exit_error := some errText } }
            closeMoveState ports .FAILED
            pure { status := .FAILED, tradeId := input.trade.trade_id,
                   summary := "FAILED: exit tx not confirmed (" ++ errText ++ ")" }
          else do
            let inputSol : ℚ := (submission.inAmountAtomic : ℚ) / SOL_ATOMIC_MULTIPLIER
            let outputUsdc : ℚ :=
              (submission.outAmountAtomic : ℚ) / USDC_ATOMIC_MULTIPLIER
            let fallbackExitPrice :=
              if inputSol > 0 then outputUsdc / inputSol else input.closePrice
            let resolvedExitPrice :=
              (submission.result.map (·.avg_fill_price)).getD fallbackExitPrice
            let tPrev ← getTrade
            let ts2 ← nowIso
            modifyTrade fun t =>
              { t with
                execution :=
                  { t.execution with exit_submission_state := some .CONFIRMED }
                position :=
                  { t.position with
                    status := .CLOSED
                    exit_price := some (roundTo resolvedExitPrice 6)
                    exit_trigger_price := some (roundTo input.closePrice 6)
                    exit_time_iso := some ts2 }
                close_reason := some input.closeReason }
            tryCatchM (closeMoveState ports .CLOSED)
              (fun e => do
                modifyTrade fun t =>
                  { t with
                    position := tPrev.position
                    close_reason := tPrev.close_reason }
                throwM e)
            pure { status := .CLOSED, tradeId := input.trade.trade_id,
                   summary := "CLOSED: reason=" ++ input.closeReason.str ++
                     ", tx=" ++ submission.txSignature })
        (fun e => do
          modifyTrade fun t =>
            { t with execution :=
                { t.execution with
                  exit_submission_state := some .FAILED
                  exit_error := some e.message } }
          tryCatchM (closeMoveState ports .FAILED) (fun _ => pure ())
          pure { status := .FAILED, tradeId := input.trade.trade_id,
                 summary := "FAILED: " ++ e.message })

/-! ## Open-position use case (`src/app/usecases/open_position.ts`) -/

structure OpenPositionInput where
  config : BotConfig
  signal : EntrySignal
  barCloseTimeIso : String
deriving DecidableEq, Repr

inductive OpenStatus where
  | OPENED
  | FAILED
deriving DecidableEq, Repr

structure OpenPositionResult where
  status : OpenStatus
  tradeId : String
  summary : String
deriving DecidableEq, Repr

/-- The `moveState` closure of `openPosition`: assert the transition, mutate
the captured `currentState` and the in-memory record first, then persist
state/plan/execution/position. -/
def openMoveState (ports : Ports) (next : TradeState) : M Unit := do
  let cur ← getCur
  match assertTradeStateTransition cur next with
  | .error msg => throwM ⟨msg⟩
  | .ok _ => do
    setCur next
    let ts ← nowIso
    modifyTrade fun t => { t with state := next, updated_at := ts }
    let t ← getTrade
    let u : TradeUpdate :=
      { state := some t.state, plan := some t.plan,
        execution := some t.execution, position := some t.position,
        updated_at := some t.updated_at }
    callPort (.updateTrade t.trade_id u) (ports.updateTrade t.trade_id u)

/-- The `try` block of `openPosition` (submission, confirmation, realized
fill resolution, stop/take-profit recomputation, `CONFIRMED` commit). -/
def openAttempt (ports : Ports) (input : OpenPositionInput) (tradeId : String)
    (amountAtomic : Int) : M OpenPositionResult := do
  let req : SubmitSwapRequest :=
    { side := .buySolWithUsdc, amountAtomic := amountAtomic,
      slippageBps := input.config.execution.slippage_bps,
      onlyDirectRoutes := input.config.execution.only_direct_routes }
  let submission ← callPort (.submitSwap req) (ports.submitSwap req)
  modifyTrade fun t =>
    { t with execution :=
        { t.execution with
          entry_tx_signature := some submission.txSignature
          order :=
            match submission.order with
            | some o => some o
            | none => t.execution.order
          result :=
            match submission.result with
            | some r => some r
            | none => t.execution.result } }
  openMoveState ports .SUBMITTED
  callPort (.setInflight submission.txSignature)
    (ports.setInflightTx submission.txSignature)
  let confirmation ← callPort (.confirmSwap submission.txSignature)
    (ports.confirmSwap submission.txSignature)
  callPort (.clearInflight submission.txSignature)
    (ports.clearInflightTx submission.txSignature)
  if !confirmation.confirmed then do
    let errText := confirmation.error.getD "unknown confirmation error"
    modifyTrade fun t =>
      { t with execution :=
          { t.execution with entry_error := some errText } }
    openMoveState ports .FAILED
    pure { status := .FAILED, tradeId := tradeId,
           summary := "FAILED: entry tx not confirmed (" ++ errText ++ ")" }
  else do
    let fallbackReceivedSol : ℚ :=
      (submission.outAmountAtomic : ℚ) / SOL_ATOMIC_MULTIPLIER
    let receivedSol :=
      (submission.result.map (·.filled_base_sol)).getD fallbackReceivedSol
    if receivedSol ≤ 0 then do
      modifyTrade fun t =>
        { t with execution :=
            { t.execution with entry_error := some "filled quantity is 0" } }
      openMoveState ports .FAILED
      pure { status := .FAILED, tradeId := tradeId,
             summary := "FAILED: filled quantity is 0" }
    else do
      let fallbackEntryPrice := input.config.execution.min_notional_usdc / receivedSol
      let resolvedEntryPrice :=
        (submission.result.map (·.avg_fill_price)).getD fallbackEntryPrice
      let swingStop := input.signal.stop_price
      match calculateMaxLossStopPrice resolvedEntryPrice
          input.config.risk.max_loss_per_trade_pct with
      | .error msg => throwM ⟨msg⟩
      | .ok pctStop =>
      match tightenStopForLong resolvedEntryPrice swingStop
          input.config.risk.max_loss_per_trade_pct with
      | .error msg => throwM ⟨msg⟩
      | .ok tightened =>
      let finalStop :=
        if tightened ≥ resolvedEntryPrice then pctStop else tightened
      match calculateTakeProfitPrice resolvedEntryPrice finalStop
          input.config.exit.take_profit_r_multiple with
      | .error msg => throwM ⟨msg⟩
      | .ok recalculatedTakeProfit =>
      let ts ← nowIso
      modifyTrade fun t =>
        { t with
          position :=
            { t.position with
              quantity_sol := roundTo receivedSol 9
              entry_price := roundTo resolvedEntryPrice 6
              stop_price := roundTo finalStop 6
              take_profit_price := roundTo recalculatedTakeProfit 6
              entry_time_iso := some ts }
          plan :=
            { t.plan with
              summary := "Buy SOL with min notional USDC (realized)"
              entry_price := roundTo resolvedEntryPrice 6
              stop_price := roundTo finalStop 6
              take_profit_price := roundTo recalculatedTakeProfit 6 } }
      openMoveState ports .CONFIRMED
      pure { status := .OPENED, tradeId := tradeId,
             summary := "OPENED: tx=" ++ submission.txSignature }

/-- `openPosition(dependencies, input)`.  The initial `createTrade` call and
the invalid-notional branch sit outside the `try`, exactly as in the
source. -/
def openPosition (ports : Ports) (input : OpenPositionInput) :
    M OpenPositionResult := do
  let tradeId := buildTradeId input.barCloseTimeIso
  let now ← nowIso
  let trade : TradeRecord :=
    { trade_id := tradeId
      bar_close_time_iso := input.barCloseTimeIso
      state := .CREATED
      config_version := input.config.meta.config_version
      signal :=
        { summary := input.signal.summary
          bar_close_time_iso := input.barCloseTimeIso
          ema_fast := input.signal.ema_fast
          ema_slow := input.signal.ema_slow }
      plan :=
        { summary := "Buy SOL with min notional USDC"
          notional_usdc := input.config.execution.min_notional_usdc
          entry_price := input.signal.entry_price
          stop_price := input.signal.stop_price
          take_profit_price := input.signal.take_profit_price
          r_multiple := input.config.exit.take_profit_r_multiple }
      execution := {}
      position :=
        { status := .OPEN
          quantity_sol := 0
          entry_price := input.signal.entry_price
          stop_price := input.signal.stop_price
          take_profit_price := input.signal.take_profit_price }
      created_at := now
      updated_at := now }
  setTrade trade
  callPort (.createTrade tradeId) (ports.createTrade trade)
  setCur .CREATED
  let notionalUsdc := input.config.execution.min_notional_usdc
  if notionalUsdc ≤ 0 then do
    modifyTrade fun t =>
      { t with execution :=
          { t.execution with entry_error := some "min_notional_usdc must be > 0" } }
    openMoveState ports .FAILED
    pure { status := .FAILED, tradeId := tradeId,
           summary := "FAILED: invalid min_notional_usdc" }
  else do
    let amountAtomic : Int := jsRound (notionalUsdc * USDC_ATOMIC_MULTIPLIER)
    tryCatchM (openAttempt ports input tradeId amountAtomic)
      (fun e => do
        modifyTrade fun t =>
          { t with execution :=
              { t.execution with entry_error := some e.message } }
        tryCatchM (openMoveState ports .FAILED) (fun _ => pure ())
        pure { status := .FAILED, tradeId := tradeId,
               summary := "FAILED: " ++ e.message })

/-! ## Cycle orchestrator (`src/app/usecases/run_cycle.ts`, `runCycle`) -/

def OHLCV_LIMIT : Int := 300

/-- The body of `runCycle`'s `try` block (everything between `try {` and
`} catch`): config load, enabled check, exit-management branch when an open
trade exists, otherwise the idempotency check, market-data alignment, daily
cap, strategy evaluation, idempotency marking, and position opening.  All
outcomes are written into the in-memory `RunRecord`. -/
def runCycleBody (ports : Ports) (runAtMs : Int) : M Unit := do
  let config ← callPort .getConfig ports.getCurrentConfig
  let timeframe := config.signal_timeframe
  let barCloseMs := getLastClosedBarClose runAtMs timeframe
  let barCloseTimeIso := isoOf barCloseMs
  modifyRun fun r =>
    { r with
      run_id := buildRunId barCloseTimeIso runAtMs
      bar_close_time_iso := barCloseTimeIso
      config_version := some config.meta.config_version }
  if !config.enabled then
    modifyRun fun r =>
      { r with result := .SKIPPED
               summary := "SKIPPED: config/current.enabled is false" }
  else do
    let openTrade ← callPort .findOpen ports.findOpenTrade
    match openTrade with
    | some openTrade => do
      modifyRun fun r => { r with trade_id := some openTrade.trade_id }
      let markPriceFromExecution ←
        match ports.getMarkPrice with
        | some resp => callPort .getMark resp
        | none => pure none
      let markPriceFromBars ←
        if markPriceFromExecution = none then do
          let bars ← callPort (.fetchBars 1) (ports.fetchBars 1)
          pure ((bars.getLast?).map (·.close))
        else
          pure none
      match
        (match markPriceFromExecution with
         | some m => some m
         | none => markPriceFromBars) with
      | none =>
        modifyRun fun r =>
          { r with result := .FAILED
                   summary := "FAILED: no mark price available" }
      | some markPrice =>
        if markPrice ≥ openTrade.position.take_profit_price then do
          let closed ← closePosition ports
            { config := config, trade := openTrade,
              closeReason := .TAKE_PROFIT, closePrice := markPrice }
          modifyRun fun r =>
            { r with
              result := if closed.status = .CLOSED then .CLOSED else .FAILED
              summary := closed.summary }
        else if markPrice ≤ openTrade.position.stop_price then do
          let closed ← closePosition ports
            { config := config, trade := openTrade,
              closeReason := .STOP_LOSS, closePrice := markPrice }
          modifyRun fun r =>
            { r with
              result := if closed.status = .CLOSED then .CLOSED else .FAILED
              summary := closed.summary }
        else
          modifyRun fun r =>
            { r with
              result := .HOLD
              summary := "HOLD: open position exists and no exit trigger fired on this bar" }
    | none => do
      let alreadyJudged ← callPort (.hasEntry barCloseTimeIso)
        (ports.hasEntryAttempt barCloseTimeIso)
      if alreadyJudged then
        modifyRun fun r =>
          { r with result := .SKIPPED_ENTRY
                   summary := "SKIPPED_ENTRY: entry already evaluated for this bar" }
      else do
        let bars ← callPort (.fetchBars OHLCV_LIMIT) (ports.fetchBars OHLCV_LIMIT)
        let closedBars := bars.filter (fun b => decide (b.closeTime ≤ barCloseMs))
        match closedBars.getLast? with
        | none =>
          modifyRun fun r =>
            { r with result := .FAILED
                     summary := "FAILED: no closed bars available" }
        | some latestClosedBar =>
          if latestClosedBar.closeTime ≠ barCloseMs then
            modifyRun fun r =>
              { r with
                result := .FAILED
                summary := "FAILED: market bar close does not match expected close"
                reason := some ("EXPECTED_" ++ barCloseTimeIso ++ "_GOT_" ++
                  isoOf latestClosedBar.closeTime) }
          else do
            let dayRange := getUtcDayRange barCloseMs
            let tradesToday ← callPort (.countTrades dayRange.1 dayRange.2)
              (ports.countTradesForUtcDay dayRange.1 dayRange.2)
            if tradesToday ≥ config.risk.max_trades_per_day then
              modifyRun fun r =>
                { r with
                  result := .SKIPPED
                  summary := "SKIPPED: max_trades_per_day reached"
                  reason := some ("TRADES_TODAY_" ++ toString tradesToday) }
            else
              match evaluateEmaTrendPullbackV0
                  { bars := closedBars, strategy := config.strategy,
                    risk := config.risk, exit := config.exit,
                    execution := config.execution } with
              | .error msg => throwM ⟨msg⟩
              | .ok (.noSignal dSummary dReason _ _) => do
                let _ ← callPort (.markEntry barCloseTimeIso)
                  (ports.markEntryAttempt barCloseTimeIso)
                modifyRun fun r =>
                  { r with result := .NO_SIGNAL
                           summary := dSummary
                           reason := some dReason.str }
              | .ok (.enter e) => do
                let marked ← callPort (.markEntry barCloseTimeIso)
                  (ports.markEntryAttempt barCloseTimeIso)
                if !marked then
                  modifyRun fun r =>
                    { r with
                      result := .SKIPPED_ENTRY
                      summary := "SKIPPED_ENTRY: idem entry key already exists for this bar" }
                else do
                  let opened ← openPosition ports
                    { config := config, signal := e,
                      barCloseTimeIso := barCloseTimeIso }
                  modifyRun fun r =>
                    { r with
                      trade_id := some opened.tradeId
                      result := if opened.status = .OPENED then .OPENED else .FAILED
                      summary := opened.summary }

/-- The `finally` block's guarded save: persist the current `RunRecord`,
log-and-continue when the write itself rejects. -/
def trySaveRun (ports : Ports) : M Unit :=
  tryCatchM
    (do
      let r ← getRun
      callPort (.saveRun r.run_id) (ports.saveRun r))
    (fun _ => pure ())

/-- `runCycle(dependencies)`: initialize the provisional `RunRecord`,
acquire the run lock (a save failure on the not-acquired path propagates,
as in the source, where that `saveRun` sits outside the `try/finally`),
then run the body under `try/catch`, and in the `finally` save the
`RunRecord` (log-and-continue on failure) and release the lock (a release
failure propagates, as in the source's unprotected `finally` tail). -/
def runCycle (ports : Ports) (runAtMs : Int) : M RunRecord := do
  let runAtIso := isoOf runAtMs
  setRun
    { run_id := buildRunId runAtIso runAtMs
      bar_close_time_iso := runAtIso
      executed_at_iso := runAtIso
      result := .FAILED
      summary := "FAILED: run initialization" }
  let locked ← callPort .acquireLock ports.acquireRunnerLock
  if !locked then do
    modifyRun fun r =>
      { r with
        result := .SKIPPED
        summary := "SKIPPED: lock:runner already acquired by another process" }
    let r ← getRun
    callPort (.saveRun r.run_id) (ports.saveRun r)
    getRun
  else do
    let outcome ← tryCatchM
      (do runCycleBody ports runAtMs; pure (none : Option Err))
      (fun e => pure (some e))
    match outcome with
    | none => pure ()
    | some e =>
      modifyRun fun r =>
        { r with
          result := .FAILED
          summary := "FAILED: unhandled run_cycle error"
          reason := some e.message }
    trySaveRun ports
    callPort .releaseLock ports.releaseRunnerLock
    getRun

/-- A default (empty) trade record for the initial world. -/
def emptyTrade : TradeRecord :=
  { trade_id := "", bar_close_time_iso := "", state := .CREATED
    config_version := 0
    signal := { summary := "", bar_close_time_iso := "", ema_fast := 0, ema_slow := 0 }
    plan := { summary := "", notional_usdc := 0, entry_price := 0, stop_price := 0,
              take_profit_price := 0, r_multiple := 0 }
    execution := {}
    position := { status := .OPEN, quantity_sol := 0, entry_price := 0,
                  stop_price := 0, take_profit_price := 0 }
    created_at := "", updated_at := "" }

/-- A default run record for the initial world. -/
def emptyRun : RunRecord :=
  { run_id := "", bar_close_time_iso := "", executed_at_iso := ""
    result := .FAILED, summary := "" }

/-- The initial world of an invocation: empty trace, clock zero. -/
def w0 : W :=
  { trace := [], clock := 0, trade := emptyTrade, run := emptyRun,
    curState := .CREATED }

/-- One top-level invocation of the orchestrator from the initial world. -/
def runCycleRun (ports : Ports) (runAtMs : Int) : Except Err RunRecord × W :=
  runCycle ports runAtMs w0

/-! ### Concrete port-behaviour fixtures used by the witnesses -/

/-- An enabled sample configuration on the 4h timeframe. -/
def sampleConfig : BotConfig :=
  { enabled := true
    signal_timeframe := .h4
    strategy := sampleStrategy
    risk := { max_loss_per_trade_pct := 1, max_trades_per_day := 3 }
    execution := { slippage_bps := 100, min_notional_usdc := 50,
                   only_direct_routes := false }
    exit := { take_profit_r_multiple := 2 }
    meta := { config_version := 7 } }

/-- A confirmed open trade: quantity 2 SOL, entry 100, stop 95,
take-profit 110. -/
def confirmedTrade : TradeRecord :=
  { emptyTrade with
    trade_id := "trade-1"
    bar_close_time_iso := "ISO0"
    state := .CONFIRMED
    config_version := 7
    position := { status := .OPEN, quantity_sol := 2, entry_price := 100,
                  stop_price := 95, take_profit_price := 110 } }

/-- The same trade still in `CREATED`. -/
def createdTrade : TradeRecord :=
  { confirmedTrade with trade_id := "trade-0", state := .CREATED }

/-- A benign swap submission fixture. -/
def benignSub : SwapSubmission :=
  { txSignature := "tx-1", inAmountAtomic := 2000000000,
    outAmountAtomic := 220000000 }

/-- All-benign port behaviour: the lock is acquired, configuration loads,
no open trade, marking succeeds, swaps submit and confirm, persistence
succeeds. -/
def basePorts : Ports :=
  { acquireRunnerLock := .ok true
    releaseRunnerLock := .ok ()
    hasEntryAttempt := fun _ => .ok false
    markEntryAttempt := fun _ => .ok true
    setInflightTx := fun _ => .ok ()
    clearInflightTx := fun _ => .ok ()
    getCurrentConfig := .ok sampleConfig
    createTrade := fun _ => .ok ()
    updateTrade := fun _ _ => .ok ()
    findOpenTrade := .ok none
    countTradesForUtcDay := fun _ _ => .ok 0
    saveRun := fun _ => .ok ()
    fetchBars := fun _ => .ok []
    getMarkPrice := none
    submitSwap := fun _ => .ok benignSub
    confirmSwap := fun _ => .ok { confirmed := true } }

/-- Ports where the lock is not acquired and the `RunRecord` save rejects:
the save failure on the lock-not-acquired path escapes `runCycle`. -/
def lockBusySaveFailPorts : Ports :=
  { basePorts with
    acquireRunnerLock := .ok false
    saveRun := fun _ => .error ⟨"firestore unavailable"⟩ }

/-- Ports where configuration loading rejects (an exception inside the
cycle body). -/
def configFailPorts : Ports :=
  { basePorts with getCurrentConfig := .error ⟨"config missing"⟩ }

/-- Ports where persisting the `CLOSED` transition rejects while every
other `updateTrade` call succeeds. -/
def closedCommitFailPorts : Ports :=
  { basePorts with
    updateTrade := fun _ u =>
      if u.state = some .CLOSED then .error ⟨"commit failed"⟩ else .ok () }

/-- Ports where `createTrade` rejects. -/
def createTradeFailPorts : Ports :=
  { basePorts with createTrade := fun _ => .error ⟨"createTrade failed"⟩ }

/-- Ports where swap submission rejects. -/
def submitFailPorts : Ports :=
  { basePorts with submitSwap := fun _ => .error ⟨"submit failed"⟩ }

/-- Ports with no open trade, an aligned single closed bar at the 4h
boundary, and an already-present idempotency key (`markEntryAttempt`
returns `false`). -/
def noSignalMarkedPorts : Ports :=
  { basePorts with
    fetchBars := fun _ => .ok [sampleBar 14400000 100 99 101]
    markEntryAttempt := fun _ => .ok false }

/-- A swap submission carrying a realized fill result. -/
def filledSub : SwapSubmission :=
  { benignSub with
    result := some { avg_fill_price := 111, spent_quote_usdc := 222,
                     filled_base_sol := 2 } }

/-- Ports with an open confirmed trade, an execution-side mark price of
111 (above the stored take-profit of 110), and a filled exit swap. -/
def takeProfitPorts : Ports :=
  { basePorts with
    findOpenTrade := .ok (some confirmedTrade)
    getMarkPrice := some (.ok (some 111))
    submitSwap := fun _ => .ok filledSub }

/-- The close-position input for a trade still in `CREATED`. -/
def closeInputCreated : ClosePositionInput :=
  { config := sampleConfig, trade := createdTrade,
    closeReason := .TAKE_PROFIT, closePrice := 100 }

/-- The close-position input for the confirmed fixture trade. -/
def closeInputConfirmed : ClosePositionInput :=
  { config := sampleConfig, trade := confirmedTrade,
    closeReason := .TAKE_PROFIT, closePrice := 111 }

/-- The open-position input for the fixture signal. -/
def openInputFixture : OpenPositionInput :=
  { config := sampleConfig, signal := enterFixtureSignal,
    barCloseTimeIso := "ISO14400000" }

/-- The world state at entry to `openPosition`'s `try` block: timestamp
taken, trade record built and persisted, `currentState = CREATED`. -/
def openPreWorld (input : OpenPositionInput) (w : W) : W :=
  { trace := w.trace ++ [.createTrade (buildTradeId input.barCloseTimeIso)]
    clock := w.clock + 1
    trade :=
      { trade_id := buildTradeId input.barCloseTimeIso
        bar_close_time_iso := input.barCloseTimeIso
        state := .CREATED
        config_version := input.config.meta.config_version
        signal :=
          { summary := input.signal.summary
            bar_close_time_iso := input.barCloseTimeIso
            ema_fast := input.signal.ema_fast
            ema_slow := input.signal.ema_slow }
        plan :=
          { summary := "Buy SOL with min notional USDC"
            notional_usdc := input.config.execution.min_notional_usdc
            entry_price := input.signal.entry_price
            stop_price := input.signal.stop_price
            take_profit_price := input.signal.take_profit_price
            r_multiple := input.config.exit.take_profit_r_multiple }
        execution := {}
        position :=
          { status := .OPEN
            quantity_sol := 0
            entry_price := input.signal.entry_price
            stop_price := input.signal.stop_price
            take_profit_price := input.signal.take_profit_price }
        created_at := "t" ++ toString w.clock
        updated_at := "t" ++ toString w.clock }
    run := w.run
    curState := .CREATED }

/-- The world state as `runCycle` enters its `try` block: provisional run
record written, lock acquired. -/
def runInitWorld (runAtMs : Int) : W :=
  { trace := [Event.acquireLock]
    clock := 0
    trade := emptyTrade
    run :=
      { run_id := buildRunId (isoOf runAtMs) runAtMs
        bar_close_time_iso := isoOf runAtMs
        executed_at_iso := isoOf runAtMs
        result := .FAILED
        summary := "FAILED: run initialization" }
    curState := .CREATED }

end TradeBot

open TradeBot

/-- C2: `canTransitionTradeState` matches the specified transition table
exactly on all 36 state pairs — `CREATED→{SUBMITTED, FAILED, CANCELED}`,
`SUBMITTED→{CONFIRMED, FAILED, CANCELED}`,
`CONFIRMED→{SUBMITTED, CLOSED, FAILED, CANCELED}`, and no outgoing
transitions from `CLOSED`, `FAILED` or `CANCELED`; in particular
`CREATED→CLOSED` is rejected, and `assertTradeStateTransition` throws
exactly when `canTransitionTradeState` returns `false`. -/
theorem canTransition_matches_table :
    (∀ f t : TradeState,
      canTransitionTradeState f t = true ↔
        ((f = .CREATED ∧ (t = .SUBMITTED ∨ t = .FAILED ∨ t = .CANCELED)) ∨
         (f = .SUBMITTED ∧ (t = .CONFIRMED ∨ t = .FAILED ∨ t = .CANCELED)) ∨
         (f = .CONFIRMED ∧
            (t = .SUBMITTED ∨ t = .CLOSED ∨ t = .FAILED ∨ t = .CANCELED)))) ∧
    canTransitionTradeState .CREATED .CLOSED = false ∧
    (∀ f : TradeState, canTransitionTradeState .CLOSED f = false ∧
      canTransitionTradeState .FAILED f = false ∧
      canTransitionTradeState .CANCELED f = false) ∧
    (∀ f t : TradeState,
      (∃ e, assertTradeStateTransition f t = .error e) ↔
        canTransitionTradeState f t = false) := by
  refine ⟨?_, by decide, by decide, ?_⟩
  · decide
  · intro f t
    constructor
    · rintro ⟨e, he⟩
      by_contra hc
      have hb : canTransitionTradeState f t = true := by
        cases h : canTransitionTradeState f t
        · exact absurd h hc
        · rfl
      simp [assertTradeStateTransition, hb] at he
    · intro h
      unfold assertTradeStateTransition
      rw [h]
      exact ⟨_, rfl⟩

/-- C9: for positive entry and positive max-loss percentage,
`tightenStopForLong` returns `max(swingLowStop, entry × (1 − pct/100))`,
which is always at least the percentage-cap stop; concretely
`tightenStopForLong(100, 92, 0.5) = 99.5` and
`calculateMaxLossStopPrice(100, 0.5) = 99.5`. -/
theorem tightenStopForLong_max (entry swing pct : ℚ)
    (hEntry : 0 < entry) (hPct : 0 < pct) :
    tightenStopForLong entry swing pct =
      .ok (max swing (entry * (1 - pct / 100))) ∧
    entry * (1 - pct / 100) ≤ max swing (entry * (1 - pct / 100)) ∧
    tightenStopForLong 100 92 (1/2) = .ok (199/2) ∧
    calculateMaxLossStopPrice 100 (1/2) = .ok (199/2) := by
  refine ⟨?_, le_max_right _ _, ?_, ?_⟩
  · simp [tightenStopForLong, calculateMaxLossStopPrice, not_le.mpr hEntry,
      not_le.mpr hPct]
  · norm_num [tightenStopForLong, calculateMaxLossStopPrice, Except.bind]
  · norm_num [calculateMaxLossStopPrice]

/-- Witness for C9 at entry 100, swing 92, pct 1/2 (i.e. 0.5%). -/
theorem tightenStopForLong_max_witness :
    tightenStopForLong 100 92 (1/2) = .ok (max 92 (100 * (1 - (1/2) / 100))) :=
  (tightenStopForLong_max 100 92 (1/2) (by norm_num) (by norm_num)).1

/-- Helper: the last entry of the per-bar fast-EMA lookup is the last entry
of the fast-EMA series, provided both lists are nonempty and the series is
no longer than the close series. -/
lemma emaFastByBarOf_getLast (closes s : List ℚ) (hc : closes ≠ [])
    (hs : s ≠ []) (hlen : s.length ≤ closes.length) :
    ((emaFastByBarOf closes s).getLast?).join = s.getLast? := by
  have hn : 0 < closes.length := List.length_pos.mpr hc
  have hsl : 0 < s.length := List.length_pos.mpr hs
  have hoff : closes.length - s.length ≤ closes.length - 1 := by omega
  have hidx : closes.length - 1 - (closes.length - s.length) = s.length - 1 := by
    omega
  unfold emaFastByBarOf
  rw [List.getLast?_eq_getElem?]
  rw [List.length_map, List.length_range]
  rw [List.getElem?_map]
  rw [List.getElem?_range (by omega)]
  simp only [Option.map_some']
  rw [if_pos hoff, hidx]
  rw [List.getLast?_eq_getElem?]
  rfl

/-- Helper: on a successful take-profit computation, the multiplier was
positive, the stop was below entry, and the result is `entry + oneR·r`. -/
lemma calculateTakeProfitPrice_ok (entry stop r tp : ℚ)
    (h : calculateTakeProfitPrice entry stop r = .ok tp) :
    0 < r ∧ stop < entry ∧ tp = entry + (entry - stop) * r := by
  unfold calculateTakeProfitPrice at h
  split at h
  · exact Except.noConfusion h
  split at h
  · exact Except.noConfusion h
  refine ⟨by linarith [not_le.mp (by assumption : ¬ r ≤ 0)], by
    linarith [not_le.mp (by assumption : ¬ entry ≤ stop)], ?_⟩
  injection h with h
  exact h.symm

/-- Helper: any `ENTER` decision produced by the risk stage satisfies the
stop/entry/take-profit ordering and the minimum stop distance. -/
lemma riskStage_enter (input : EvaluateInput) (f s c : ℚ) (e : EntrySignal)
    (h : strategyRiskStage input f s c = .ok (.enter e)) :
    e.stop_price < e.entry_price ∧
    (2/5 : ℚ) ≤ (e.entry_price - e.stop_price) / e.entry_price * 100 ∧
    e.entry_price < e.take_profit_price := by
  unfold strategyRiskStage at h
  cases hsw : calculateSwingLow (input.bars.map (·.low))
      input.strategy.swing_low_lookback_bars with
  | error msg => rw [hsw] at h; exact Except.noConfusion h
  | ok swingLowStop =>
  rw [hsw] at h
  simp only [] at h
  cases htg : tightenStopForLong c swingLowStop input.risk.max_loss_per_trade_pct with
  | error msg => rw [htg] at h; exact Except.noConfusion h
  | ok stopCandidate =>
  rw [htg] at h
  simp only [] at h
  split at h
  · exact StrategyDecision.noConfusion (Except.ok.inj h)
  split at h
  · exact StrategyDecision.noConfusion (Except.ok.inj h)
  split at h
  · exact StrategyDecision.noConfusion (Except.ok.inj h)
  next hAtr hNotGe hNotTight =>
  cases htp : calculateTakeProfitPrice c stopCandidate
      input.exit.take_profit_r_multiple with
  | error msg => rw [htp] at h; exact Except.noConfusion h
  | ok takeProfitPrice =>
  rw [htp] at h
  simp only [] at h
  injection h with h
  injection h with h
  subst h
  obtain ⟨hr, hsc, htpv⟩ := calculateTakeProfitPrice_ok _ _ _ _ htp
  refine ⟨by simpa using hsc, ?_, ?_⟩
  · have := not_lt.mp hNotTight
    simpa [MIN_STOP_DISTANCE_PCT] using this
  · show c < takeProfitPrice
    rw [htpv]
    have : 0 < (c - stopCandidate) * input.exit.take_profit_r_multiple :=
      mul_pos (by linarith) hr
    linarith

/-- C10: every `ENTER` decision of `evaluateEmaTrendPullbackV0` satisfies
`stop_price < entry_price`, a stop distance
`(entry − stop)/entry × 100` of at least `0.4`, and
`take_profit_price > entry_price`. -/
theorem enter_decision_risk_structure (input : EvaluateInput) (e : EntrySignal)
    (h : evaluateEmaTrendPullbackV0 input = .ok (.enter e)) :
    e.stop_price < e.entry_price ∧
    (2/5 : ℚ) ≤ (e.entry_price - e.stop_price) / e.entry_price * 100 ∧
    e.entry_price < e.take_profit_price := by
  unfold evaluateEmaTrendPullbackV0 at h
  split at h
  · exact StrategyDecision.noConfusion (Except.ok.inj h)
  split at h
  · exact StrategyDecision.noConfusion (Except.ok.inj h)
  split at h
  case _ emaFast emaSlow entryPrice =>
    unfold strategySetupStage at h
    split at h
    · exact StrategyDecision.noConfusion (Except.ok.inj h)
    split at h
    · exact StrategyDecision.noConfusion (Except.ok.inj h)
    split at h
    · exact StrategyDecision.noConfusion (Except.ok.inj h)
    split at h
    · exact StrategyDecision.noConfusion (Except.ok.inj h)
    split at h
    · exact StrategyDecision.noConfusion (Except.ok.inj h)
    split at h
    · exact StrategyDecision.noConfusion (Except.ok.inj h)
    split at h
    · exact StrategyDecision.noConfusion (Except.ok.inj h)
    exact riskStage_enter _ _ _ _ _ h
  all_goals exact StrategyDecision.noConfusion (Except.ok.inj h)

set_option maxHeartbeats 4000000 in
/-- Witness for C10: on `enterInput` the strategy returns the concrete
`ENTER` decision `enterFixtureSignal` (entry 100.15, stop 99.7, take-profit
101.05), and the three risk-structure facts hold for it. -/
theorem enter_decision_risk_structure_witness :
    enterFixtureSignal.stop_price < enterFixtureSignal.entry_price ∧
    (2/5 : ℚ) ≤ (enterFixtureSignal.entry_price - enterFixtureSignal.stop_price) /
        enterFixtureSignal.entry_price * 100 ∧
    enterFixtureSignal.entry_price < enterFixtureSignal.take_profit_price :=
  enter_decision_risk_structure enterInput enterFixtureSignal (by
    norm_num [evaluateEmaTrendPullbackV0, strategySetupStage, strategyRiskStage,
      latestFastEma, latestSlowEma, emaFastByBarOf, pullbackFound, pullbackAt,
      emaSeries, emaCalc, rsiSeries, rsiCalc, rsiPoint, wilderSeries, trueRanges,
      atrSeries, atrCalc, calculateSwingLow, tightenStopForLong,
      calculateMaxLossStopPrice, calculateTakeProfitPrice, roundTo, jsRound,
      minimumBarsOf, enterInput, enterBars, sampleBar, sampleStrategy,
      enterFixtureSignal, PULLBACK_LOOKBACK_BARS, MAX_DISTANCE_FROM_EMA_FAST_PCT,
      MIN_STOP_DISTANCE_PCT, RSI_PERIOD, RSI_LOWER_BOUND, RSI_UPPER_BOUND,
      ATR_PERIOD, ATR_STOP_MULTIPLIER, List.range_succ, List.range',
      Int.toNat_natCast, show (2:Int).toNat = 2 from rfl,
      show (3:Int).toNat = 3 from rfl, show (14:Int).toNat = 14 from rfl,
      max_def, min_def, abs_eq_max_neg])

set_option maxHeartbeats 4000000 in
/-- C8 (counterexample): on `downtrendBadNotionalInput` the latest fast EMA
(85.5) is below the latest slow EMA (86), yet the strategy returns
`INVALID_MIN_NOTIONAL_USDC`, not `EMA_TREND_FILTER_FAILED` — the sizing
guard runs before the trend filter, refuting "regardless of any other
condition of the input". -/
theorem trendFilter_claim_counterexample :
    latestFastEma downtrendBadNotionalInput = some (171/2) ∧
    latestSlowEma downtrendBadNotionalInput = some 86 ∧
    ((171 : ℚ)/2) < 86 ∧
    evaluateEmaTrendPullbackV0 downtrendBadNotionalInput =
      .ok (.noSignal "NO_SIGNAL: min_notional_usdc is invalid"
        .INVALID_MIN_NOTIONAL_USDC none none) ∧
    (∀ s ef es, evaluateEmaTrendPullbackV0 downtrendBadNotionalInput ≠
      .ok (.noSignal s .EMA_TREND_FILTER_FAILED ef es)) := by
  have heval : evaluateEmaTrendPullbackV0 downtrendBadNotionalInput =
      .ok (.noSignal "NO_SIGNAL: min_notional_usdc is invalid"
        .INVALID_MIN_NOTIONAL_USDC none none) := by
    unfold evaluateEmaTrendPullbackV0
    rw [if_neg, if_pos]
    · norm_num [downtrendBadNotionalInput, downBars, sampleBar]
    · norm_num [downtrendBadNotionalInput, downBars, sampleBar, sampleStrategy,
        minimumBarsOf, PULLBACK_LOOKBACK_BARS, RSI_PERIOD, ATR_PERIOD]
  refine ⟨?_, ?_, by norm_num, heval, ?_⟩
  · norm_num [latestFastEma, emaFastByBarOf, emaSeries, emaCalc,
      downtrendBadNotionalInput, downBars, sampleBar, sampleStrategy,
      List.range_succ, show (2:Int).toNat = 2 from rfl]
  · norm_num [latestSlowEma, emaSeries, emaCalc, downtrendBadNotionalInput,
      downBars, sampleBar, sampleStrategy, show (3:Int).toNat = 3 from rfl]
  · intro s ef es hcontra
    rw [heval] at hcontra
    have := Except.ok.inj hcontra
    simp only [StrategyDecision.noSignal.injEq] at this
    exact NoSignalReason.noConfusion this.2.1

set_option maxHeartbeats 1000000 in
/-- C8 (amended): whenever the earlier guards pass — enough bars, a positive
minimum notional, both EMA values stable — a latest fast EMA below the
latest slow EMA always yields `NO_SIGNAL` with reason
`EMA_TREND_FILTER_FAILED`. -/
theorem trendFilter_veto (input : EvaluateInput) (ef es : ℚ)
    (hbars : minimumBarsOf input.strategy ≤ (input.bars.length : Int))
    (hnot : 0 < input.execution.min_notional_usdc)
    (hf : latestFastEma input = some ef)
    (hs : latestSlowEma input = some es)
    (hlt : ef < es) :
    evaluateEmaTrendPullbackV0 input =
      .ok (.noSignal "NO_SIGNAL: trend filter failed"
        .EMA_TREND_FILTER_FAILED (some ef) (some es)) := by
  have h15 : (15 : Int) ≤ minimumBarsOf input.strategy := by
    unfold minimumBarsOf
    have h14 : ((RSI_PERIOD : Int) + 1) = 15 := by norm_num [RSI_PERIOD]
    calc (15 : Int) = (RSI_PERIOD : Int) + 1 := h14.symm
      _ ≤ max ((RSI_PERIOD : Int) + 1) ((ATR_PERIOD : Int) + 1) := le_max_left _ _
      _ ≤ max ((PULLBACK_LOOKBACK_BARS : Int) + 1) _ := le_max_right _ _
      _ ≤ max input.strategy.swing_low_lookback_bars _ := le_max_right _ _
      _ ≤ max input.strategy.ema_slow_period _ := le_max_right _ _
      _ ≤ max input.strategy.ema_fast_period _ := le_max_right _ _
  have hlen : 0 < input.bars.length := by
    have := le_trans h15 hbars
    omega
  obtain ⟨c, hc⟩ : ∃ c, (input.bars.map (·.close)).getLast? = some c := by
    rw [Option.isSome_iff_exists.symm, List.getLast?_isSome]
    simp only [ne_eq, List.map_eq_nil_iff]
    exact fun h => by simp [h] at hlen
  unfold evaluateEmaTrendPullbackV0
  rw [if_neg (not_lt.mpr hbars), if_neg (not_le.mpr hnot)]
  rw [hf, hs, hc]
  simp only []
  unfold strategySetupStage
  rw [if_pos hlt.le]

set_option maxHeartbeats 4000000 in
/-- Witness for C8 (amended): on `downtrendInput` (falling closes, fast
EMA 85.5 below slow EMA 86, valid notional) the strategy returns
`EMA_TREND_FILTER_FAILED`. -/
theorem trendFilter_veto_witness :
    evaluateEmaTrendPullbackV0 downtrendInput =
      .ok (.noSignal "NO_SIGNAL: trend filter failed"
        .EMA_TREND_FILTER_FAILED (some (171/2)) (some 86)) :=
  trendFilter_veto downtrendInput (171/2) 86
    (by norm_num [downtrendInput, downtrendBadNotionalInput, downBars, sampleBar,
      sampleStrategy, minimumBarsOf, PULLBACK_LOOKBACK_BARS, RSI_PERIOD, ATR_PERIOD])
    (by norm_num [downtrendInput, downtrendBadNotionalInput])
    (by norm_num [latestFastEma, emaFastByBarOf, emaSeries, emaCalc,
      downtrendInput, downtrendBadNotionalInput, downBars, sampleBar,
      sampleStrategy, List.range_succ, show (2:Int).toNat = 2 from rfl])
    (by norm_num [latestSlowEma, emaSeries, emaCalc, downtrendInput,
      downtrendBadNotionalInput, downBars, sampleBar, sampleStrategy,
      show (3:Int).toNat = 3 from rfl])
    (by norm_num)

namespace TradeBot

@[simp] lemma M_bind_eq {α β : Type} (x : M α) (f : α → M β) :
    x >>= f = Mbind x f := rfl

@[simp] lemma M_pure_eq {α : Type} (a : α) : (pure a : M α) = Mpure a := rfl

/-- Helper: the guarded `finally` save always succeeds and only appends a
`saveRun` event, whatever the persistence behaviour. -/
lemma trySaveRun_eval (ports : Ports) (w : W) :
    trySaveRun ports w =
      (.ok (), { w with trace := w.trace ++ [Event.saveRun w.run.run_id] }) := by
  unfold trySaveRun tryCatchM
  simp only [M_bind_eq, Mbind, M_pure_eq, Mpure, getRun, callPort]
  cases hs : ports.saveRun w.run with
  | ok v => cases v; rfl
  | error e => rfl

/-- Helper: evaluation of the orchestrator's `try/catch` wrapper when the
body returns normally. -/
lemma tryCatch_wrap_ok (x : M Unit) (w w' : W) (u : Unit)
    (h : x w = (.ok u, w')) :
    tryCatchM (Mbind x (fun _ => Mpure (none : Option Err)))
        (fun e => Mpure (some e)) w = (.ok none, w') := by
  unfold tryCatchM Mbind Mpure
  rw [h]

/-- Helper: evaluation of the orchestrator's `try/catch` wrapper when the
body throws. -/
lemma tryCatch_wrap_error (x : M Unit) (w w' : W) (e : Err)
    (h : x w = (.error e, w')) :
    tryCatchM (Mbind x (fun _ => Mpure (none : Option Err)))
        (fun e => Mpure (some e)) w = (.ok (some e), w') := by
  unfold tryCatchM Mbind Mpure
  rw [h]

/-- Helper: a `try` with a `catch` that swallows the error always returns
normally and leaves the world where the body left it. -/
lemma tryCatch_pure_unit (x : M Unit) (w : W) :
    tryCatchM x (fun _ => (Mpure () : M Unit)) w = (.ok (), (x w).2) := by
  unfold tryCatchM
  rcases h : x w with ⟨r, w'⟩
  cases r with
  | ok u => cases u; simp [h]
  | error e => simp [h, Mpure]

/-- Helper: `openPosition`'s `moveState` never touches the execution
snapshot, succeed or fail. -/
lemma openMoveState_preserves_execution (ports : Ports) (s : TradeState) (w : W) :
    ((openMoveState ports s w).2).trade.execution = w.trade.execution := by
  unfold openMoveState
  simp only [M_bind_eq, Mbind, getCur]
  cases hA : assertTradeStateTransition w.curState s with
  | error msg => simp [throwM]
  | ok u => simp [setCur, nowIso, modifyTrade, getTrade, callPort, Mbind, Mpure]

/-- Helper: a successful `openPosition` `moveState` leaves the captured
`currentState` at the target state. -/
lemma openMoveState_ok_curState (ports : Ports) (s : TradeState) (w : W)
    (u : Unit) (w' : W) (h : openMoveState ports s w = (.ok u, w')) :
    w'.curState = s := by
  unfold openMoveState at h
  simp only [M_bind_eq, Mbind, getCur] at h
  cases hA : assertTradeStateTransition w.curState s with
  | error msg =>
    rw [hA] at h
    simp only [throwM] at h
    exact absurd h (by simp)
  | ok v =>
    rw [hA] at h
    simp only [setCur, nowIso, modifyTrade, getTrade, callPort, Mbind] at h
    rw [Prod.mk.injEq] at h
    obtain ⟨-, hw'⟩ := h
    subst hw'
    rfl

/-- Helper: an error exit of `openPosition`'s `moveState` either left the
world untouched (the transition assertion rejected before any mutation) or
had already mutated both the captured state and the in-memory record to the
target state before the persistence call rejected. -/
lemma openMoveState_error_cases (ports : Ports) (s : TradeState) (w : W)
    (e : Err) (w' : W) (h : openMoveState ports s w = (.error e, w')) :
    w' = w ∨ (w'.curState = s ∧ w'.trade.state = s) := by
  unfold openMoveState at h
  simp only [M_bind_eq, Mbind, getCur] at h
  cases hA : assertTradeStateTransition w.curState s with
  | error msg =>
    rw [hA] at h
    simp only [throwM] at h
    rw [Prod.mk.injEq] at h
    exact Or.inl h.2.symm
  | ok v =>
    rw [hA] at h
    simp only [setCur, nowIso, modifyTrade, getTrade, callPort, Mbind] at h
    rw [Prod.mk.injEq] at h
    obtain ⟨-, hw'⟩ := h
    subst hw'
    exact Or.inr ⟨rfl, rfl⟩

/-- Helper: forcing `FAILED` from a world whose captured state admits the
transition, or whose record is already `FAILED`, always leaves the
in-memory record in `FAILED` — whatever the persistence call returns. -/
lemma openMoveState_forceFailed (ports : Ports) (w : W)
    (h : canTransitionTradeState w.curState .FAILED = true ∨
      w.trade.state = .FAILED) :
    ((openMoveState ports .FAILED) w).2.trade.state = .FAILED := by
  unfold openMoveState
  simp only [M_bind_eq, Mbind, getCur]
  cases hA : assertTradeStateTransition w.curState .FAILED with
  | error msg =>
    rcases h with h | h
    · exfalso
      unfold assertTradeStateTransition at hA
      rw [h] at hA
      simp at hA
    · simpa [throwM] using h
  | ok v =>
    simp [setCur, nowIso, modifyTrade, getTrade, callPort, Mbind]

/-- Helper: every error exit of `openPosition`'s `try` block, entered with
captured state `CREATED`, leaves a world from which the `FAILED` forcing
can complete: either the `FAILED` transition is legal from the captured
state, or the in-memory record is already `FAILED`. -/
lemma openAttempt_error_state (ports : Ports) (input : OpenPositionInput)
    (tid : String) (amt : Int) (w : W) (e : Err) (wa : W)
    (hw : w.curState = .CREATED)
    (hA : openAttempt ports input tid amt w = (.error e, wa)) :
    canTransitionTradeState wa.curState .FAILED = true ∨
      wa.trade.state = .FAILED := by
  unfold openAttempt at hA
  simp only [M_bind_eq, Mbind, M_pure_eq, Mpure, callPort, modifyTrade, nowIso,
    getTrade, throwM] at hA
  split at hA
  case h_2 x e1 w1 heq =>
    have hB := (congrArg Prod.snd hA).symm.trans (congrArg Prod.snd heq).symm
    dsimp only at hB
    left
    rw [hB]
    simp [hw, canTransitionTradeState, ALLOWED_TRANSITIONS]
  case h_1 x sub w1 heq =>
    have hc1 := congrArg (fun p => p.2.curState) heq
    dsimp only at hc1
    split at hA
    case h_2 x2 e2 w2 heq2 =>
      have hB := (congrArg Prod.snd hA).symm
      dsimp only at hB
      rcases openMoveState_error_cases _ _ _ _ _ heq2 with h | ⟨hcs, -⟩
      · left
        rw [hB, h]
        simp [← hc1, hw, canTransitionTradeState, ALLOWED_TRANSITIONS]
      · left
        rw [hB]
        simp [hcs, canTransitionTradeState, ALLOWED_TRANSITIONS]
    case h_1 x2 u2 w2 heq2 =>
      have hs2 : w2.curState = .SUBMITTED :=
        openMoveState_ok_curState _ _ _ _ _ heq2
      split at hA
      case h_2 x3 e3 w3 heq3 =>
        have hB := (congrArg Prod.snd hA).symm.trans (congrArg Prod.snd heq3).symm
        dsimp only at hB
        left
        rw [hB]
        simp [hs2, canTransitionTradeState, ALLOWED_TRANSITIONS]
      case h_1 x3 u3 w3 heq3 =>
        have hc3 := congrArg (fun p => p.2.curState) heq3
        dsimp only at hc3
        split at hA
        case h_2 x4 e4 w4 heq4 =>
          have hB := (congrArg Prod.snd hA).symm.trans (congrArg Prod.snd heq4).symm
          dsimp only at hB
          left
          rw [hB]
          simp [← hc3, hs2, canTransitionTradeState, ALLOWED_TRANSITIONS]
        case h_1 x4 conf w4 heq4 =>
          have hc4 := congrArg (fun p => p.2.curState) heq4
          dsimp only at hc4
          split at hA
          case h_2 x5 e5 w5 heq5 =>
            have hB := (congrArg Prod.snd hA).symm.trans (congrArg Prod.snd heq5).symm
            dsimp only at hB
            left
            rw [hB]
            simp [← hc4, ← hc3, hs2, canTransitionTradeState, ALLOWED_TRANSITIONS]
          case h_1 x5 u5 w5 heq5 =>
            have hc5 := congrArg (fun p => p.2.curState) heq5
            dsimp only at hc5
            split at hA
            case isTrue hconf =>
              simp only [M_bind_eq, Mbind, M_pure_eq, Mpure, callPort,
                modifyTrade, nowIso, getTrade, throwM] at hA
              split at hA
              case h_2 x6 e6 w6 heq6 =>
                have hB := (congrArg Prod.snd hA).symm
                dsimp only at hB
                rcases openMoveState_error_cases _ _ _ _ _ heq6 with h | ⟨-, hts⟩
                · left
                  rw [hB, h]
                  simp [← hc5, ← hc4, ← hc3, hs2, canTransitionTradeState,
                    ALLOWED_TRANSITIONS]
                · right
                  rw [hB]
                  exact hts
              case h_1 x6 u6 w6 heq6 =>
                exact absurd (congrArg Prod.fst hA) (by simp)
            case isFalse hconf =>
              split at hA
              case isTrue hrecv =>
                simp only [M_bind_eq, Mbind, M_pure_eq, Mpure, callPort,
                  modifyTrade, nowIso, getTrade, throwM] at hA
                split at hA
                case h_2 x6 e6 w6 heq6 =>
                  have hB := (congrArg Prod.snd hA).symm
                  dsimp only at hB
                  rcases openMoveState_error_cases _ _ _ _ _ heq6 with h | ⟨-, hts⟩
                  · left
                    rw [hB, h]
                    simp [← hc5, ← hc4, ← hc3, hs2, canTransitionTradeState,
                      ALLOWED_TRANSITIONS]
                  · right
                    rw [hB]
                    exact hts
                case h_1 x6 u6 w6 heq6 =>
                  exact absurd (congrArg Prod.fst hA) (by simp)
              case isFalse hrecv =>
                set EP : ℚ := (Option.map (fun x => x.avg_fill_price)
                    sub.result).getD
                  (input.config.execution.min_notional_usdc /
                    (Option.map (fun x => x.filled_base_sol) sub.result).getD
                      ((sub.outAmountAtomic : ℚ) / SOL_ATOMIC_MULTIPLIER))
                  with hEP
                cases hcal1 : calculateMaxLossStopPrice EP
                    input.config.risk.max_loss_per_trade_pct with
                | error msg =>
                  rw [hcal1] at hA
                  simp only [throwM] at hA
                  have hB := (congrArg Prod.snd hA).symm
                  dsimp only at hB
                  left
                  rw [hB]
                  simp [← hc5, ← hc4, ← hc3, hs2, canTransitionTradeState,
                    ALLOWED_TRANSITIONS]
                | ok pct =>
                  rw [hcal1] at hA
                  simp only [] at hA
                  cases hcal2 : tightenStopForLong EP input.signal.stop_price
                      input.config.risk.max_loss_per_trade_pct with
                  | error msg =>
                    rw [hcal2] at hA
                    simp only [throwM] at hA
                    have hB := (congrArg Prod.snd hA).symm
                    dsimp only at hB
                    left
                    rw [hB]
                    simp [← hc5, ← hc4, ← hc3, hs2, canTransitionTradeState,
                      ALLOWED_TRANSITIONS]
                  | ok tight =>
                    rw [hcal2] at hA
                    simp only [] at hA
                    cases hcal3 : calculateTakeProfitPrice EP
                        (if tight ≥ EP then pct else tight)
                        input.config.exit.take_profit_r_multiple with
                    | error msg =>
                      rw [hcal3] at hA
                      simp only [throwM] at hA
                      have hB := (congrArg Prod.snd hA).symm
                      dsimp only at hB
                      left
                      rw [hB]
                      simp [← hc5, ← hc4, ← hc3, hs2, canTransitionTradeState,
                        ALLOWED_TRANSITIONS]
                    | ok tp =>
                      rw [hcal3] at hA
                      simp only [M_bind_eq, Mbind, M_pure_eq, Mpure, nowIso,
                        modifyTrade] at hA
                      split at hA
                      case h_2 x9 e9 w9 heq9 =>
                        have hB := (congrArg Prod.snd hA).symm
                        dsimp only at hB
                        rcases openMoveState_error_cases _ _ _ _ _ heq9 with
                          h | ⟨hcs, -⟩
                        · left
                          rw [hB, h]
                          simp [← hc5, ← hc4, ← hc3, hs2, canTransitionTradeState,
                            ALLOWED_TRANSITIONS]
                        · left
                          rw [hB]
                          simp [hcs, canTransitionTradeState, ALLOWED_TRANSITIONS]
                      case h_1 x9 u9 w9 heq9 =>
                        exact absurd (congrArg Prod.fst hA) (by simp)

/-- C6: for a trade that is not `CONFIRMED`, `closePosition` returns a
`FAILED` result, performs no port call, takes no timestamp, and leaves the
in-memory trade record exactly as passed in. -/
theorem closePosition_rejects_nonconfirmed (ports : Ports)
    (input : ClosePositionInput) (w : W)
    (h : input.trade.state ≠ .CONFIRMED) :
    closePosition ports input w =
      (.ok { status := .FAILED, tradeId := input.trade.trade_id,
             summary := "FAILED: trade state is " ++ input.trade.state.str ++
               ", expected CONFIRMED" },
       { w with trade := input.trade }) := by
  simp [closePosition, Mbind, Mpure, setTrade, if_pos h]

/-- Witness for C6: closing a trade still in `CREATED` under the benign
port behaviour fails without any trace event or mutation. -/
theorem closePosition_rejects_nonconfirmed_witness :
    closePosition basePorts closeInputCreated w0 =
      (.ok { status := .FAILED, tradeId := closeInputCreated.trade.trade_id,
             summary := "FAILED: trade state is " ++
               closeInputCreated.trade.state.str ++ ", expected CONFIRMED" },
       { w0 with trade := closeInputCreated.trade }) :=
  closePosition_rejects_nonconfirmed basePorts closeInputCreated w0 (by decide)

/-- C3: when the persistence commit of the `CLOSED` transition rejects (and
every other `updateTrade` call succeeds), `closePosition` returns a
`FAILED` result and the in-memory trade's position snapshot and close
reason are restored to their pre-commit (input) values; the trade ends in
`FAILED`, never showing an unpersisted `CLOSED` snapshot. -/
theorem closePosition_rollback (ports : Ports) (input : ClosePositionInput)
    (e : Err) (sub : SwapSubmission) (w : W)
    (hstate : input.trade.state = .CONFIRMED)
    (hqty : 0 < ⌊input.trade.position.quantity_sol * SOL_ATOMIC_MULTIPLIER⌋)
    (hsubmit : ports.submitSwap
      { side := .sellSolForUsdc,
        amountAtomic := ⌊input.trade.position.quantity_sol * SOL_ATOMIC_MULTIPLIER⌋,
        slippageBps := input.config.execution.slippage_bps,
        onlyDirectRoutes := input.config.execution.only_direct_routes } = .ok sub)
    (hconfirm : ports.confirmSwap sub.txSignature = .ok { confirmed := true })
    (hset : ports.setInflightTx sub.txSignature = .ok ())
    (hclear : ports.clearInflightTx sub.txSignature = .ok ())
    (hupdate : ∀ id u, ports.updateTrade id u =
      if u.state = some .CLOSED then .error e else .ok ()) :
    ∃ res w', closePosition ports input w = (.ok res, w') ∧
      res.status = .FAILED ∧
      res.summary = "FAILED: " ++ e.message ∧
      w'.trade.state = .FAILED ∧
      w'.trade.position = input.trade.position ∧
      w'.trade.close_reason = input.trade.close_reason := by
  simp [closePosition, closeMoveState, Mbind, Mpure, setTrade, getTrade,
    modifyTrade, setCur, getCur, nowIso, callPort, throwM, tryCatchM,
    hstate, not_le.mpr hqty, hsubmit, hconfirm, hset, hclear, hupdate,
    assertTradeStateTransition, canTransitionTradeState, ALLOWED_TRANSITIONS]
  refine ⟨_, _, ⟨rfl, rfl⟩, rfl, rfl, rfl, rfl, rfl⟩

/-- Witness for C3: a confirmed 2-SOL position whose `CLOSED` commit is
rejected by the store ends `FAILED` with its original position snapshot and
close reason restored. -/
theorem closePosition_rollback_witness :
    ∃ res w', closePosition closedCommitFailPorts closeInputConfirmed w0 =
        (.ok res, w') ∧
      res.status = .FAILED ∧
      res.summary = "FAILED: " ++ (⟨"commit failed"⟩ : Err).message ∧
      w'.trade.state = .FAILED ∧
      w'.trade.position = closeInputConfirmed.trade.position ∧
      w'.trade.close_reason = closeInputConfirmed.trade.close_reason :=
  closePosition_rollback closedCommitFailPorts closeInputConfirmed
    ⟨"commit failed"⟩ benignSub w0
    (by decide)
    (by norm_num [closeInputConfirmed, confirmedTrade, emptyTrade,
      SOL_ATOMIC_MULTIPLIER])
    rfl rfl rfl rfl (fun _ _ => rfl)

/-- C4 (counterexample): a rejection of the initial `createTrade`
persistence call propagates out of `openPosition` — that call sits before
the `try` block, so the claim's "including failure of the initial
createTrade persistence call" is false. -/
theorem openPosition_createTrade_counterexample :
    (openPosition createTradeFailPorts openInputFixture w0).1 =
      .error ⟨"createTrade failed"⟩ := by
  simp [openPosition, Mbind, Mpure, nowIso, setTrade, callPort,
    createTradeFailPorts, basePorts]

/-- C4 (amended): once the initial `createTrade` persistence has succeeded
and the notional validated positive, any error thrown inside the
submit/confirm/resolve flow is caught: `openPosition` returns normally, the
result is `FAILED` with the error message, the error is recorded as the
trade's entry error, and the in-memory trade is forced to the `FAILED`
state, with a secondary failure while forcing it swallowed. -/
theorem openPosition_catches (ports : Ports) (input : OpenPositionInput) (w : W)
    (hcreate : ∀ t, ports.createTrade t = .ok ())
    (hnot : 0 < input.config.execution.min_notional_usdc) :
    ∃ res w', openPosition ports input w = (.ok res, w') ∧
      ∀ e wa,
        openAttempt ports input (buildTradeId input.barCloseTimeIso)
            (jsRound (input.config.execution.min_notional_usdc *
              USDC_ATOMIC_MULTIPLIER))
            (openPreWorld input w) = (.error e, wa) →
        res.status = .FAILED ∧
        res.summary = "FAILED: " ++ e.message ∧
        w'.trade.execution.entry_error = some e.message ∧
        w'.trade.state = .FAILED := by
  rcases hA : openAttempt ports input (buildTradeId input.barCloseTimeIso)
      (jsRound (input.config.execution.min_notional_usdc *
        USDC_ATOMIC_MULTIPLIER))
      (openPreWorld input w) with ⟨r, wa⟩
  unfold openPreWorld at hA
  cases r with
  | ok res =>
    refine ⟨res, wa, ?_, ?_⟩
    · simp only [openPosition, M_bind_eq, Mbind, Mpure, nowIso, setTrade, setCur,
        callPort, modifyTrade, hcreate]
      rw [if_neg (by simpa using not_le.mpr hnot)]
      simp only [tryCatchM]
      rw [hA]
    · intro e wa' heq
      exact absurd heq (by simp)
  | error e0 =>
    refine ⟨{ status := .FAILED, tradeId := buildTradeId input.barCloseTimeIso,
              summary := "FAILED: " ++ e0.message },
            ((openMoveState ports .FAILED)
              { wa with trade :=
                  { wa.trade with execution :=
                      { wa.trade.execution with entry_error := some e0.message } } }).2,
            ?_, ?_⟩
    · simp only [openPosition, M_bind_eq, Mbind, Mpure, nowIso, setTrade, setCur,
        callPort, modifyTrade, hcreate]
      rw [if_neg (by simpa using not_le.mpr hnot)]
      simp only [tryCatchM]
      rw [hA]
      simp only [M_bind_eq, Mbind, modifyTrade, tryCatch_pure_unit, M_pure_eq, Mpure]
    · intro e wa' heq
      have he : e0 = e := by
        have hfst := congrArg Prod.fst heq
        simpa using hfst
      subst he
      refine ⟨rfl, rfl, ?_, ?_⟩
      · rw [openMoveState_preserves_execution]
      · apply openMoveState_forceFailed
        have hdis := openAttempt_error_state ports input _ _ _ e0 wa rfl hA
        simpa using hdis

/-- Witness for C4 (amended): with a rejecting swap submission the attempt
throws, yet `openPosition` returns a `FAILED` result with the submission
error recorded as the entry error. -/
theorem openPosition_catches_witness :
    ∃ res w', openPosition submitFailPorts openInputFixture w0 = (.ok res, w') ∧
      ∀ e wa,
        openAttempt submitFailPorts openInputFixture
            (buildTradeId openInputFixture.barCloseTimeIso)
            (jsRound (openInputFixture.config.execution.min_notional_usdc *
              USDC_ATOMIC_MULTIPLIER))
            (openPreWorld openInputFixture w0) = (.error e, wa) →
        res.status = .FAILED ∧
        res.summary = "FAILED: " ++ e.message ∧
        w'.trade.execution.entry_error = some e.message ∧
        w'.trade.state = .FAILED :=
  openPosition_catches submitFailPorts openInputFixture w0 (fun _ => rfl)
    (by norm_num [openInputFixture, sampleConfig])

/-- C1 (counterexample): with the lock already held by another process and
a rejecting `RunRecord` save, `runCycle` propagates the save failure — the
lock-not-acquired save sits outside the `try/finally`, so the claim's
"including a failure of the RunRecord save on the lock-not-acquired path"
is false. -/
theorem runCycle_lockBusy_save_counterexample :
    (runCycleRun lockBusySaveFailPorts 0).1 = .error ⟨"firestore unavailable"⟩ := by
  simp [runCycleRun, runCycle, Mbind, Mpure, setRun, modifyRun, getRun,
    callPort, w0, lockBusySaveFailPorts, basePorts]

/-- C1 (amended): whenever lock acquisition and lock release return
normally — and, on the lock-not-acquired path, the `RunRecord` save
succeeds — `runCycle` returns a `RunRecord` and propagates no exception;
any exception thrown inside the cycle body is caught and classified
`FAILED` with the error message as the run's reason. -/
theorem runCycle_top_level_catches (ports : Ports) (runAtMs : Int) (b : Bool)
    (hacq : ports.acquireRunnerLock = .ok b)
    (hrel : ports.releaseRunnerLock = .ok ())
    (hskipSave : b = false → ∀ r, ports.saveRun r = .ok ()) :
    ∃ res w', runCycleRun ports runAtMs = (.ok res, w') ∧
      (b = true →
        ∀ e wa, runCycleBody ports runAtMs (runInitWorld runAtMs) = (.error e, wa) →
          res.result = .FAILED ∧
          res.summary = "FAILED: unhandled run_cycle error" ∧
          res.reason = some e.message) := by
  cases b with
  | false =>
    refine ⟨{ run_id := buildRunId (isoOf runAtMs) runAtMs
              bar_close_time_iso := isoOf runAtMs
              executed_at_iso := isoOf runAtMs
              result := .SKIPPED
              summary := "SKIPPED: lock:runner already acquired by another process" },
            { trace := [Event.acquireLock,
                        Event.saveRun (buildRunId (isoOf runAtMs) runAtMs)]
              clock := 0
              trade := emptyTrade
              run := { run_id := buildRunId (isoOf runAtMs) runAtMs
                       bar_close_time_iso := isoOf runAtMs
                       executed_at_iso := isoOf runAtMs
                       result := .SKIPPED
                       summary := "SKIPPED: lock:runner already acquired by another process" }
              curState := .CREATED },
            ?_, ?_⟩
    · simp [runCycleRun, runCycle, Mbind, Mpure, setRun, modifyRun, getRun,
        callPort, w0, hacq, hskipSave rfl]
    · intro hb
      exact absurd hb (by simp)
  | true =>
    rcases hB : runCycleBody ports runAtMs (runInitWorld runAtMs) with ⟨r, wa⟩
    unfold runInitWorld at hB
    cases r with
    | ok u =>
      refine ⟨wa.run,
              { wa with trace := wa.trace ++
                  [Event.saveRun wa.run.run_id, Event.releaseLock] },
              ?_, ?_⟩
      · simp [runCycleRun, runCycle, Mbind, Mpure,
          setRun, modifyRun, getRun, callPort, w0, hacq, hB,
          tryCatch_wrap_ok _ _ _ _ hB, trySaveRun_eval, hrel]
      · intro _ e wa' heq
        exact absurd heq (by simp)
    | error e0 =>
      refine ⟨{ wa.run with
                result := .FAILED
                summary := "FAILED: unhandled run_cycle error"
                reason := some e0.message },
              { wa with
                run := { wa.run with
                         result := .FAILED
                         summary := "FAILED: unhandled run_cycle error"
                         reason := some e0.message }
                trace := wa.trace ++
                  [Event.saveRun wa.run.run_id, Event.releaseLock] },
              ?_, ?_⟩
      · simp [runCycleRun, runCycle, Mbind, Mpure,
          setRun, modifyRun, getRun, callPort, w0, hacq, hB,
          tryCatch_wrap_error _ _ _ _ hB, trySaveRun_eval, hrel]
      · intro _ e wa' heq
        have h1 : e0 = e := by
          have hfst := congrArg Prod.fst heq
          simpa using hfst
        subst h1
        exact ⟨rfl, rfl, rfl⟩

/-- Witness for C1 (amended): with a rejecting configuration load the body
throws, yet `runCycle` returns normally with a `FAILED` run whose reason is
the error message. -/
theorem runCycle_top_level_catches_witness :
    ∃ res w', runCycleRun configFailPorts 0 = (.ok res, w') ∧
      (true = true →
        ∀ e wa, runCycleBody configFailPorts 0 (runInitWorld 0) = (.error e, wa) →
          res.result = .FAILED ∧
          res.summary = "FAILED: unhandled run_cycle error" ∧
          res.reason = some e.message) :=
  runCycle_top_level_catches configFailPorts 0 true rfl rfl
    (fun h => absurd h (by simp))

end TradeBot

namespace TradeBot

/-- C5 (amended): in the no-open-position branch, (a) a positive
`hasEntryAttempt` pre-check yields `SKIPPED_ENTRY` without fetching bars;
(b) on a NoSignal decision the idempotency key is still marked, but the run
result is `NO_SIGNAL` whatever the marking returned; (c) on an Enter
decision a marking that reports the key already present yields
`SKIPPED_ENTRY`. -/
theorem runCycle_entry_idempotency (ports : Ports) (cfg : BotConfig)
    (runAtMs : Int)
    (hacq : ports.acquireRunnerLock = .ok true)
    (hcfg : ports.getCurrentConfig = .ok cfg)
    (hen : cfg.enabled = true)
    (hopen : ports.findOpenTrade = .ok none)
    (hrel : ports.releaseRunnerLock = .ok ()) :
    (ports.hasEntryAttempt
        (isoOf (getLastClosedBarClose runAtMs cfg.signal_timeframe)) = .ok true →
      ∃ res w', runCycleRun ports runAtMs = (.ok res, w') ∧
        res.result = .SKIPPED_ENTRY ∧
        ∀ n, Event.fetchBars n ∉ w'.trace) ∧
    (∀ bars lb tradesToday s r f sl mb,
      ports.hasEntryAttempt
        (isoOf (getLastClosedBarClose runAtMs cfg.signal_timeframe)) = .ok false →
      ports.fetchBars OHLCV_LIMIT = .ok bars →
      (bars.filter (fun b =>
          decide (b.closeTime ≤ getLastClosedBarClose runAtMs
            cfg.signal_timeframe))).getLast? = some lb →
      lb.closeTime = getLastClosedBarClose runAtMs cfg.signal_timeframe →
      ports.countTradesForUtcDay
          (getUtcDayRange (getLastClosedBarClose runAtMs cfg.signal_timeframe)).1
          (getUtcDayRange (getLastClosedBarClose runAtMs cfg.signal_timeframe)).2
        = .ok tradesToday →
      tradesToday < cfg.risk.max_trades_per_day →
      evaluateEmaTrendPullbackV0
          { bars := bars.filter (fun b =>
              decide (b.closeTime ≤ getLastClosedBarClose runAtMs
                cfg.signal_timeframe))
            strategy := cfg.strategy
            risk := cfg.risk
            exit := cfg.exit
            execution := cfg.execution }
        = .ok (.noSignal s r f sl) →
      ports.markEntryAttempt
        (isoOf (getLastClosedBarClose runAtMs cfg.signal_timeframe)) = .ok mb →
      ∃ res w', runCycleRun ports runAtMs = (.ok res, w') ∧
        res.result = .NO_SIGNAL ∧
        Event.markEntry (isoOf (getLastClosedBarClose runAtMs cfg.signal_timeframe))
          ∈ w'.trace) ∧
    (∀ bars lb tradesToday e,
      ports.hasEntryAttempt
        (isoOf (getLastClosedBarClose runAtMs cfg.signal_timeframe)) = .ok false →
      ports.fetchBars OHLCV_LIMIT = .ok bars →
      (bars.filter (fun b =>
          decide (b.closeTime ≤ getLastClosedBarClose runAtMs
            cfg.signal_timeframe))).getLast? = some lb →
      lb.closeTime = getLastClosedBarClose runAtMs cfg.signal_timeframe →
      ports.countTradesForUtcDay
          (getUtcDayRange (getLastClosedBarClose runAtMs cfg.signal_timeframe)).1
          (getUtcDayRange (getLastClosedBarClose runAtMs cfg.signal_timeframe)).2
        = .ok tradesToday →
      tradesToday < cfg.risk.max_trades_per_day →
      evaluateEmaTrendPullbackV0
          { bars := bars.filter (fun b =>
              decide (b.closeTime ≤ getLastClosedBarClose runAtMs
                cfg.signal_timeframe))
            strategy := cfg.strategy
            risk := cfg.risk
            exit := cfg.exit
            execution := cfg.execution }
        = .ok (.enter e) →
      ports.markEntryAttempt
        (isoOf (getLastClosedBarClose runAtMs cfg.signal_timeframe)) = .ok false →
      ∃ res w', runCycleRun ports runAtMs = (.ok res, w') ∧
        res.result = .SKIPPED_ENTRY) := by
  refine ⟨?_, ?_, ?_⟩
  · intro hhas
    simp [runCycleRun, runCycle, runCycleBody, tryCatchM, Mbind, Mpure, setRun,
      modifyRun, getRun, callPort, w0, trySaveRun_eval, hacq, hcfg, hen, hopen,
      hhas, hrel]
    exact ⟨_, _, ⟨rfl, rfl⟩, rfl, fun n => by simp⟩
  · intro bars lb tradesToday s r f sl mb hhas hbars hlast hclose hcount htoday
      heval hmark
    simp at hlast
    simp [runCycleRun, runCycle, runCycleBody, tryCatchM, Mbind, Mpure, setRun,
      modifyRun, getRun, callPort, w0, trySaveRun_eval, hacq, hcfg, hen, hopen,
      hhas, hbars, hlast, hclose, hcount, ge_iff_le, not_le.mpr htoday, heval,
      hmark, hrel]
    exact ⟨_, _, ⟨rfl, rfl⟩, rfl, by simp⟩
  · intro bars lb tradesToday e hhas hbars hlast hclose hcount htoday heval hmark
    simp at hlast
    simp [runCycleRun, runCycle, runCycleBody, tryCatchM, Mbind, Mpure, setRun,
      modifyRun, getRun, callPort, w0, trySaveRun_eval, hacq, hcfg, hen, hopen,
      hhas, hbars, hlast, hclose, hcount, ge_iff_le, not_le.mpr htoday, heval,
      hmark, hrel]

/-- Witness for C5 (amended), conjunct (b): the no-signal fixture run ends
`NO_SIGNAL` and the idempotency key was marked even though the marking
reported the key already present. -/
theorem runCycle_entry_idempotency_witness :
    ∃ res w', runCycleRun noSignalMarkedPorts 14400000 = (.ok res, w') ∧
      res.result = .NO_SIGNAL ∧
      Event.markEntry
          (isoOf (getLastClosedBarClose 14400000
            sampleConfig.signal_timeframe)) ∈ w'.trace :=
  ((runCycle_entry_idempotency noSignalMarkedPorts sampleConfig 14400000
      rfl rfl rfl rfl rfl).2.1)
    [sampleBar 14400000 100 99 101] (sampleBar 14400000 100 99 101) 0
    "NO_SIGNAL: not enough bars for strategy calculation"
    (.INSUFFICIENT_BARS 1 15) none none false
    rfl rfl rfl rfl rfl (by decide) rfl rfl

end TradeBot

namespace TradeBot

/-- C7: with a `CONFIRMED` open trade, a resolved mark price, and a closer
whose collaborators succeed, the cycle classifies the exit as a trichotomy
with take-profit precedence: mark at or above the stored take-profit closes
with reason `TAKE_PROFIT`; otherwise mark at or below the stored stop
closes with reason `STOP_LOSS`; otherwise the run holds and no swap is
submitted. -/
theorem runCycle_exit_trichotomy (ports : Ports) (cfg : BotConfig)
    (t : TradeRecord) (m : ℚ) (sub : SwapSubmission) (rs : TradeResultSnapshot)
    (runAtMs : Int)
    (hacq : ports.acquireRunnerLock = .ok true)
    (hcfg : ports.getCurrentConfig = .ok cfg)
    (hen : cfg.enabled = true)
    (hfind : ports.findOpenTrade = .ok (some t))
    (hmarkp : ports.getMarkPrice = some (.ok (some m)))
    (hrel : ports.releaseRunnerLock = .ok ())
    (hstate : t.state = .CONFIRMED)
    (hqty : 0 < ⌊t.position.quantity_sol * SOL_ATOMIC_MULTIPLIER⌋)
    (hsubmit : ∀ req, ports.submitSwap req = .ok sub)
    (hres : sub.result = some rs)
    (hconf : ports.confirmSwap sub.txSignature = .ok { confirmed := true })
    (hset : ports.setInflightTx sub.txSignature = .ok ())
    (hclear : ports.clearInflightTx sub.txSignature = .ok ())
    (hupd : ∀ id u, ports.updateTrade id u = .ok ()) :
    (t.position.take_profit_price ≤ m →
      ∃ res w', runCycleRun ports runAtMs = (.ok res, w') ∧
        res.result = .CLOSED ∧ w'.trade.close_reason = some .TAKE_PROFIT) ∧
    (m < t.position.take_profit_price → m ≤ t.position.stop_price →
      ∃ res w', runCycleRun ports runAtMs = (.ok res, w') ∧
        res.result = .CLOSED ∧ w'.trade.close_reason = some .STOP_LOSS) ∧
    (m < t.position.take_profit_price → t.position.stop_price < m →
      ∃ res w', runCycleRun ports runAtMs = (.ok res, w') ∧
        res.result = .HOLD ∧ ∀ req, Event.submitSwap req ∉ w'.trace) := by
  refine ⟨?_, ?_, ?_⟩
  · intro htp
    simp [runCycleRun, runCycle, runCycleBody, closePosition, closeMoveState,
      tryCatchM, Mbind, Mpure, setRun, modifyRun, getRun, setTrade, getTrade,
      modifyTrade, setCur, getCur, nowIso, callPort, throwM, w0, trySaveRun_eval,
      assertTradeStateTransition, canTransitionTradeState, ALLOWED_TRANSITIONS,
      hacq, hcfg, hen, hfind, hmarkp, hstate, not_le.mpr hqty, hsubmit, hres,
      hconf, hset, hclear, hupd, ge_iff_le, htp, hrel]
    exact ⟨_, _, ⟨rfl, rfl⟩, rfl, rfl⟩
  · intro hlt hsl
    simp [runCycleRun, runCycle, runCycleBody, closePosition, closeMoveState,
      tryCatchM, Mbind, Mpure, setRun, modifyRun, getRun, setTrade, getTrade,
      modifyTrade, setCur, getCur, nowIso, callPort, throwM, w0, trySaveRun_eval,
      assertTradeStateTransition, canTransitionTradeState, ALLOWED_TRANSITIONS,
      hacq, hcfg, hen, hfind, hmarkp, hstate, not_le.mpr hqty, hsubmit, hres,
      hconf, hset, hclear, hupd, ge_iff_le, not_le.mpr hlt, hsl, hrel]
    exact ⟨_, _, ⟨rfl, rfl⟩, rfl, rfl⟩
  · intro hlt hgt
    simp [runCycleRun, runCycle, runCycleBody, tryCatchM, Mbind, Mpure, setRun,
      modifyRun, getRun, callPort, w0, trySaveRun_eval, hacq, hcfg, hen, hfind,
      hmarkp, ge_iff_le, not_le.mpr hlt, not_le.mpr hgt, hrel]
    exact ⟨_, _, ⟨rfl, rfl⟩, rfl, fun req => by simp⟩

/-- Witness for C7: the take-profit fixture (mark 111 against stored
take-profit 110) closes the trade with reason `TAKE_PROFIT`. -/
theorem runCycle_exit_trichotomy_witness :
    ∃ res w', runCycleRun takeProfitPorts 0 = (.ok res, w') ∧
      res.result = .CLOSED ∧ w'.trade.close_reason = some .TAKE_PROFIT :=
  (runCycle_exit_trichotomy takeProfitPorts sampleConfig confirmedTrade 111
      filledSub
      { avg_fill_price := 111, spent_quote_usdc := 222, filled_base_sol := 2 } 0
      rfl rfl rfl rfl rfl rfl rfl
      (by norm_num [confirmedTrade, emptyTrade, SOL_ATOMIC_MULTIPLIER])
      (fun _ => rfl) rfl rfl rfl rfl (fun _ _ => rfl)).1
    (by norm_num [confirmedTrade, emptyTrade])

end TradeBot

namespace TradeBot

/-- C5 (counterexample): with the idempotency key already present
(`markEntryAttempt` returns `false`) and a NoSignal strategy decision, the
run result is `NO_SIGNAL`, not `SKIPPED_ENTRY` — the marking result is
ignored on the NoSignal path, contra the claim. -/
theorem runCycle_noSignal_mark_counterexample :
    noSignalMarkedPorts.markEntryAttempt
      (isoOf (getLastClosedBarClose 14400000 SignalTimeframe.h4)) = .ok false ∧
    (runCycleRun noSignalMarkedPorts 14400000).1.map RunRecord.result =
      .ok .NO_SIGNAL ∧
    Event.markEntry (isoOf (getLastClosedBarClose 14400000 SignalTimeframe.h4))
      ∈ (runCycleRun noSignalMarkedPorts 14400000).2.trace := by
  refine ⟨rfl, rfl, by decide⟩

end TradeBot
